import Mathlib

/-!
# Notification daemon: lifecycle controller and notification queue

A shallow embedding of the request handlers of `src/daemon.c`
(`handle_method_call`, `handle_notify`, `handle_close_notification`,
`handle_get_capabilities`, `handle_get_server_information`,
`on_notification_close`, `on_notification_action_invoked`) over an explicit
daemon state, and of the popup functions `timeout_bubble`, `add_timeout`,
`nd_bubble_realize`, `nd_bubble_enter_notify_event`,
`nd_bubble_leave_notify_event`, `nd_bubble_button_release_event`,
`on_activate_link`, `add_actions` and `clear_actions` of `src/nd-bubble.c`.

The handlers are translated from the C source.  The notification entity
(`nd-notification.c`) and the queue (`nd-queue.c`) are called by the handlers
but their bodies are not part of the sources at hand; the definitions that stand
for them are modelled from the written specification and are marked as such.

Conventions
* `guint` values are natural numbers; the id counter of the queue is reduced
  modulo `2 ^ 32` when it is incremented.
* A handler returns an `Outcome`: the daemon after the call, the replies handed
  to the method invocation, and the bus signals emitted, in order.
* C objects mutated through a pointer are written back into the queue
  explicitly (`nd_queue_write_back`).
* GLib's main loop is the list of scheduled source ids together with a log of
  the `g_source_remove` calls made.
* A second daemon state (`WiredDaemon`) records, per notification, how many
  times each of the two handlers has been connected with `g_signal_connect`.
-/

namespace NotificationDaemon

/-! ## Constants of `daemon.c` -/

/-- The constant of daemon.c: `#define MAX_NOTIFICATIONS 20`. -/
def MAX_NOTIFICATIONS : Nat := 20

/-- Width of a `guint`: ids live in `[0, 2 ^ 32)`. -/
def GUINT_MODULUS : Nat := 2 ^ 32

/-! ## Data model -/

/-- A value of the `a{sv}` hints dictionary, reduced to the variant types the
notification hints use. -/
inductive HintValue where
  | boolean (b : Bool)
  | byte (n : Nat)
  | int32 (i : Int)
  | str (s : String)
  deriving DecidableEq

/-- Modelled from the spec: the closure reasons of `nd-notification.h` (the
header is not among the sources).  The spec lists them as EXPIRED,
USER_DISMISSED, CLOSE_REQUEST and UNDEFINED/RESERVED; the handlers of daemon.c
use the names `ND_NOTIFICATION_CLOSED_USER` and `ND_NOTIFICATION_CLOSED_API`. -/
inductive NdNotificationClosedReason where
  | ND_NOTIFICATION_CLOSED_EXPIRED
  | ND_NOTIFICATION_CLOSED_USER
  | ND_NOTIFICATION_CLOSED_API
  | ND_NOTIFICATION_CLOSED_RESERVED
  deriving DecidableEq

export NdNotificationClosedReason (ND_NOTIFICATION_CLOSED_EXPIRED
  ND_NOTIFICATION_CLOSED_USER ND_NOTIFICATION_CLOSED_API
  ND_NOTIFICATION_CLOSED_RESERVED)

/-- Modelled from the spec: the notification entity of `nd-notification.c`
(spec section 3).  `id` and `sender` are its identity, the remaining fields its
content.  The `state` attribute of the spec is not a field: a notification is
ACTIVE exactly while the queue holds it, and a CLOSED one is dropped from the
queue and kept nowhere. -/
structure NdNotification where
  id : Nat
  sender : String
  app_name : String
  icon : String
  summary : String
  body : String
  actions : List String
  hints : List (String × HintValue)
  timeout : Int
  is_resident : Bool
  action_icons : Bool
  deriving DecidableEq

/-- Modelled from the spec: the queue of `nd-queue.c` (the Store of spec section
4.2): the live notifications in insertion order, looked up by their id, and the
ever-increasing id counter. -/
structure NdQueue where
  notifications : List NdNotification
  next_id : Nat
  deriving DecidableEq

/-- The private data of the daemon (`struct _NotifyDaemonPrivate`): the queue.
The bus connection is the transport and carries no state of the lifecycle. -/
structure NotifyDaemon where
  queue : NdQueue
  deriving DecidableEq

/-- The arguments of a `Notify` call, as `g_variant_get` unpacks them with the
format `(&su&s&s&s^a&sa{sv}i)`. -/
structure NotifyParams where
  app_name : String
  id : Nat
  icon_name : String
  summary : String
  body : String
  actions : List String
  hints : List (String × HintValue)
  timeout : Int
  deriving DecidableEq

/-- A signal emitted on the bus by `g_dbus_connection_emit_signal`: the
destination it is addressed to and the signal's arguments. -/
inductive BusSignal where
  | NotificationClosed (destination : String) (id : Nat)
      (reason : NdNotificationClosedReason)
  | ActionInvoked (destination : String) (id : Nat) (action : String)
  deriving DecidableEq

/-- The value passed to `g_dbus_method_invocation_return_value`. -/
inductive ReturnValue where
  | none
  | id (id : Nat)
  | capabilities (caps : List String)
  | information (name vendor version spec_version : String)
  deriving DecidableEq

/-- What a method invocation is answered with: a D-Bus error (its name and the
untranslated message) or a return value. -/
inductive Reply where
  | dbus_error (name : String) (message : String)
  | return_value (v : ReturnValue)
  deriving DecidableEq

/-- Result of running a handler. -/
structure Outcome where
  daemon : NotifyDaemon
  replies : List Reply
  signals : List BusSignal
  deriving DecidableEq

/-! ## The notification entity (modelled from the spec) -/

/-- Modelled from the spec: reading a boolean flag out of the hints; a key that
is absent or not a boolean gives `false`.  Stands for the part of
`nd_notification_update` that recomputes `is_resident` and the action-icons flag
from the hints. -/
def hint_flag (hints : List (String × HintValue)) (key : String) : Bool :=
  match hints.lookup key with
  | some (HintValue.boolean b) => b
  | _ => false

/-- Modelled from the spec: `nd_notification_new` of nd-notification.c, spec
4.1 `create(sender)`: a new entity for `sender` with `id = 0`. -/
def nd_notification_new (sender : String) : NdNotification :=
  { id := 0, sender := sender, app_name := "", icon := "", summary := "",
    body := "", actions := [], hints := [], timeout := 0,
    is_resident := false, action_icons := false }

/-- Modelled from the spec: `nd_notification_update` of nd-notification.c, spec
4.1 `update`: overwrites the content fields, does not change `id` or `sender`,
and recomputes `is_resident` and the action-icons flag from the hints. -/
def nd_notification_update (notification : NdNotification)
    (app_name icon summary body : String) (actions : List String)
    (hints : List (String × HintValue)) (timeout : Int) : NdNotification :=
  { notification with
    app_name := app_name, icon := icon, summary := summary, body := body,
    actions := actions, hints := hints, timeout := timeout,
    is_resident := hint_flag hints "resident",
    action_icons := hint_flag hints "action-icons" }

/-- Modelled from the spec: `nd_notification_get_id`. -/
def nd_notification_get_id (notification : NdNotification) : Nat :=
  notification.id

/-- Modelled from the spec: `nd_notification_get_sender`. -/
def nd_notification_get_sender (notification : NdNotification) : String :=
  notification.sender

/-- Modelled from the spec: `nd_notification_get_is_resident`. -/
def nd_notification_get_is_resident (notification : NdNotification) : Bool :=
  notification.is_resident

/-! ## The queue (modelled from the spec) -/

/-- Modelled from the spec: `nd_queue_new` of nd-queue.c: the empty Store.  The
first id it will hand out is 1 (spec section 8, end-to-end example). -/
def nd_queue_new : NdQueue :=
  { notifications := [], next_id := 1 }

/-- Modelled from the spec: `nd_queue_length`, spec 4.2 `length()`: the number
of live entries. -/
def nd_queue_length (queue : NdQueue) : Nat :=
  queue.notifications.length

/-- Modelled from the spec: `nd_queue_lookup`, spec 4.2 `lookup(id)`: the live
notification with this id, if any. -/
def nd_queue_lookup (queue : NdQueue) (id : Nat) : Option NdNotification :=
  queue.notifications.find? (fun n => decide (n.id = id))

/-- Modelled from the spec: spec 4.2 `remove(id)`: drops the id from the live
mapping. -/
def nd_queue_remove (queue : NdQueue) (id : Nat) : NdQueue :=
  { queue with notifications := queue.notifications.filter (fun n => decide (n.id ≠ id)) }

/-- Modelled from the spec: `nd_queue_add`, spec 4.2 `add` with `assign_id`
(spec 4.3 step 5: this is where the id is assigned and bound).  The
notification receives the counter's value as its id and becomes the newest live
entry; the counter is a `guint` that is incremented without a check, so it
wraps modulo `2 ^ 32` (spec 3: it "wraps only on integer overflow (treated as
a fatal condition in practice, not handled specially)").  Returns the queue
and the notification as stored. -/
def nd_queue_add (queue : NdQueue) (notification : NdNotification) :
    NdQueue × NdNotification :=
  let stored := { notification with id := queue.next_id }
  ({ notifications := queue.notifications ++ [stored],
     next_id := (queue.next_id + 1) % GUINT_MODULUS }, stored)

/-- Replaces the first element satisfying `p`. -/
def replaceFirst {α : Type} (p : α → Bool) (a : α) : List α → List α
  | [] => []
  | x :: xs => if p x then a :: xs else x :: replaceFirst p a xs

/-- The effect of mutating, through the pointer `nd_queue_lookup` returned, the
object the queue holds: the entry found under the notification's id is replaced
by the mutated notification. -/
def nd_queue_write_back (queue : NdQueue) (notification : NdNotification) : NdQueue :=
  { queue with
    notifications :=
      replaceFirst (fun n => decide (n.id = notification.id)) notification
        queue.notifications }

/-! ## Effects of a notification -/

/-- The handler `on_notification_close` of daemon.c, connected to the closed
effect of every notification `handle_notify` creates: emits
`NotificationClosed (id, reason)` to the notification's sender. -/
def on_notification_close (notification : NdNotification)
    (reason : NdNotificationClosedReason) (_daemon : NotifyDaemon) : List BusSignal :=
  [BusSignal.NotificationClosed (nd_notification_get_sender notification)
    (nd_notification_get_id notification) reason]

/-- Modelled from the spec: `nd_notification_close` of nd-notification.c, spec
4.1 `close(reason)`: a no-op on a notification that is already CLOSED (one the
queue no longer holds); otherwise the notification becomes CLOSED and the closed
effect runs synchronously: the daemon's handler `on_notification_close` (wired
first, in `handle_notify`) and the Store's `remove` (spec 4.4). -/
def nd_notification_close (daemon : NotifyDaemon) (notification : NdNotification)
    (reason : NdNotificationClosedReason) : NotifyDaemon × List BusSignal :=
  match nd_queue_lookup daemon.queue (nd_notification_get_id notification) with
  | none => (daemon, [])
  | some _ =>
    let signals := on_notification_close notification reason daemon
    ({ queue := nd_queue_remove daemon.queue (nd_notification_get_id notification) },
      signals)

/-- The handler `on_notification_action_invoked` of daemon.c, connected to the
action-invoked effect: emits `ActionInvoked (id, action)` to the notification's
sender, then closes the notification with `ND_NOTIFICATION_CLOSED_USER` unless it
is resident. -/
def on_notification_action_invoked (notification : NdNotification)
    (action : String) (daemon : NotifyDaemon) : NotifyDaemon × List BusSignal :=
  let emitted := [BusSignal.ActionInvoked (nd_notification_get_sender notification)
    (nd_notification_get_id notification) action]
  -- resident notifications do not close when actions are invoked
  if ! nd_notification_get_is_resident notification then
    let closed := nd_notification_close daemon notification ND_NOTIFICATION_CLOSED_USER
    (closed.1, emitted ++ closed.2)
  else
    (daemon, emitted)

/-! ## Method handlers of `daemon.c` -/

/-- The handler `handle_notify` of daemon.c.  The capacity test comes first;
then a non-zero id is looked up and, when it does not resolve, treated as 0;
a notification is created when the id is 0; it is updated with the request's
content; a created notification is added to the queue; the reply carries the
notification's id. -/
def handle_notify (daemon : NotifyDaemon) (sender : String)
    (parameters : NotifyParams) : Outcome :=
  if nd_queue_length daemon.queue > MAX_NOTIFICATIONS then
    { daemon := daemon,
      replies := [Reply.dbus_error
        "org.freedesktop.Notifications.MaxNotificationsExceeded"
        "Exceeded maximum number of notifications"],
      signals := [] }
  else
    -- if (id > 0): look the id up; a miss sets id = 0
    let found : Option NdNotification :=
      if parameters.id > 0 then nd_queue_lookup daemon.queue parameters.id else none
    match found with
    | some existing =>
      -- id stays non-zero: the notification found is updated in place
      let notification := nd_notification_update existing parameters.app_name
        parameters.icon_name parameters.summary parameters.body parameters.actions
        parameters.hints parameters.timeout
      { daemon := { queue := nd_queue_write_back daemon.queue notification },
        replies := [Reply.return_value (ReturnValue.id (nd_notification_get_id notification))],
        signals := [] }
    | none =>
      -- id == 0: a new notification is created, updated and added
      let created := nd_notification_new sender
      let updated := nd_notification_update created parameters.app_name
        parameters.icon_name parameters.summary parameters.body parameters.actions
        parameters.hints parameters.timeout
      let added := nd_queue_add daemon.queue updated
      { daemon := { queue := added.1 },
        replies := [Reply.return_value (ReturnValue.id (nd_notification_get_id added.2))],
        signals := [] }

/-- The handler `handle_close_notification` of daemon.c: id 0 is answered with
the error InvalidId; otherwise the notification found under the id, if any, is
closed with `ND_NOTIFICATION_CLOSED_API`, and the call returns no value. -/
def handle_close_notification (daemon : NotifyDaemon) (_sender : String)
    (id : Nat) : Outcome :=
  if id = 0 then
    { daemon := daemon,
      replies := [Reply.dbus_error "org.freedesktop.Notifications.InvalidId"
        "Invalid notification identifier"],
      signals := [] }
  else
    match nd_queue_lookup daemon.queue id with
    | some notification =>
      let closed := nd_notification_close daemon notification ND_NOTIFICATION_CLOSED_API
      { daemon := closed.1,
        replies := [Reply.return_value ReturnValue.none],
        signals := closed.2 }
    | none =>
      { daemon := daemon,
        replies := [Reply.return_value ReturnValue.none],
        signals := [] }

/-- The function `notify_daemon_init` of daemon.c: a daemon with a new queue. -/
def notify_daemon_init : NotifyDaemon :=
  { queue := nd_queue_new }

/-! ## Event sequences -/

/-- What the event loop delivers to the daemon: the two state-changing bus
methods, and the user invoking an action on the popup of a notification. -/
inductive Event where
  | Notify (sender : String) (parameters : NotifyParams)
  | CloseNotification (sender : String) (id : Nat)
  | ActionInvoked (id : Nat) (action : String)
  deriving DecidableEq

/-- Modelled from the spec: `nd_notification_action_invoked` of
nd-notification.c as the popup calls it: the action-invoked effect of the
notification runs, which is the handler `on_notification_action_invoked`.  Only
a live notification has a popup, so an id that does not resolve does nothing. -/
def nd_notification_action_invoked (daemon : NotifyDaemon) (id : Nat)
    (action : String) : Outcome :=
  match nd_queue_lookup daemon.queue id with
  | some notification =>
    let invoked := on_notification_action_invoked notification action daemon
    { daemon := invoked.1, replies := [], signals := invoked.2 }
  | none => { daemon := daemon, replies := [], signals := [] }

/-- One event handled to completion (the loop is single-threaded). -/
def step (daemon : NotifyDaemon) : Event → Outcome
  | Event.Notify sender parameters => handle_notify daemon sender parameters
  | Event.CloseNotification sender id => handle_close_notification daemon sender id
  | Event.ActionInvoked id action => nd_notification_action_invoked daemon id action

/-- The outcomes of a sequence of events handled in order, one per event. -/
def trace (daemon : NotifyDaemon) : List Event → List Outcome
  | [] => []
  | e :: es => step daemon e :: trace (step daemon e).daemon es

/-- The daemon after a sequence of events. -/
def run (daemon : NotifyDaemon) : List Event → NotifyDaemon
  | [] => daemon
  | e :: es => run (step daemon e).daemon es

/-- All bus signals emitted during a sequence of events, in order. -/
def emitted (daemon : NotifyDaemon) (es : List Event) : List BusSignal :=
  (trace daemon es).flatMap (fun o => o.signals)

/-- A `Notify` request with the given `replaces_id` and some fixed content. -/
def sample_request (id : Nat) : NotifyParams :=
  { app_name := "App", id := id, icon_name := "icon", summary := "Hi",
    body := "body", actions := [], hints := [], timeout := -1 }

/-- The same request as `sample_request`, flagged resident. -/
def resident_request (id : Nat) : NotifyParams :=
  { sample_request id with hints := [("resident", HintValue.boolean true)] }

/-- The daemon after `count` successive `Notify` requests with `replaces_id = 0`
and no close in between. -/
def after_notifies (count : Nat) : NotifyDaemon :=
  run notify_daemon_init (List.replicate count (Event.Notify "client" (sample_request 0)))

/-- The error reply of `handle_notify` when the queue is over capacity. -/
def max_notifications_exceeded : Reply :=
  Reply.dbus_error "org.freedesktop.Notifications.MaxNotificationsExceeded"
    "Exceeded maximum number of notifications"

/-- The error reply of `handle_close_notification` for id 0. -/
def invalid_id : Reply :=
  Reply.dbus_error "org.freedesktop.Notifications.InvalidId"
    "Invalid notification identifier"

/-- The ids of the live notifications, in queue order. -/
def live_ids (daemon : NotifyDaemon) : List Nat :=
  daemon.queue.notifications.map (fun n => n.id)

/-- The live notification with id 2 of `after_notifies 3`. -/
def second_notification : NdNotification :=
  { id := 2, sender := "client", app_name := "App", icon := "icon", summary := "Hi",
    body := "body", actions := [], hints := [], timeout := -1, is_resident := false,
    action_icons := false }

/-- Outcome of a request from another sender that replaces the live id 2 of
`after_notifies 3` with resident content. -/
def replace_outcome : Outcome :=
  handle_notify (after_notifies 3) "other" (resident_request 2)

/-- Outcome of a request naming the id 9, which does not resolve in
`after_notifies 3`. -/
def stale_outcome : Outcome :=
  handle_notify (after_notifies 3) "other" (sample_request 9)

/-- The constant of daemon.c: `#define NOTIFICATION_SPEC_VERSION "1.2"`. -/
def NOTIFICATION_SPEC_VERSION : String := "1.2"

/-- One call of GLib's `g_variant_builder_add (builder, "s", value)` on a
builder of type `as`: the string is appended to the array under construction. -/
def g_variant_builder_add (builder : List String) (value : String) : List String :=
  builder ++ [value]

/-- The handler `handle_get_capabilities` of daemon.c: a new builder, eight
`g_variant_builder_add` calls, and the built array as the return value.  It
reads neither the sender nor the queue. -/
def handle_get_capabilities (daemon : NotifyDaemon) (_sender : String) : Outcome :=
  let builder : List String := []
  let builder := g_variant_builder_add builder "actions"
  let builder := g_variant_builder_add builder "body"
  let builder := g_variant_builder_add builder "body-hyperlinks"
  let builder := g_variant_builder_add builder "body-markup"
  let builder := g_variant_builder_add builder "icon-static"
  let builder := g_variant_builder_add builder "sound"
  let builder := g_variant_builder_add builder "persistence"
  let builder := g_variant_builder_add builder "action-icons"
  { daemon := daemon,
    replies := [Reply.return_value (ReturnValue.capabilities builder)],
    signals := [] }

/-- The handler `handle_get_server_information` of daemon.c.  The package
version is the macro `PACKAGE_VERSION` of the generated `config.h`, which is
build configuration and is taken as a parameter. -/
def handle_get_server_information (PACKAGE_VERSION : String) (daemon : NotifyDaemon)
    (_sender : String) : Outcome :=
  { daemon := daemon,
    replies := [Reply.return_value
      (ReturnValue.information "Notification Daemon" "GNOME" PACKAGE_VERSION
        NOTIFICATION_SPEC_VERSION)],
    signals := [] }

/-- The `parameters` tuple of a method call, by the signatures the
introspection data of daemon.c declares: the eight arguments of `Notify`, the
single `u` of `CloseNotification`, or the empty tuple. -/
inductive MethodParameters where
  | notify (parameters : NotifyParams)
  | close_notification (id : Nat)
  | empty
  deriving DecidableEq

/-- The parameters have the signature the introspection data declares for the
method.  GDBus checks this against the registered interface before it calls
`handle_method_call`. -/
def parameters_match (method_name : String) : MethodParameters → Bool
  | MethodParameters.notify _ => method_name == "Notify"
  | MethodParameters.close_notification _ => method_name == "CloseNotification"
  | MethodParameters.empty =>
    method_name == "GetCapabilities" || method_name == "GetServerInformation"

/-- The function `handle_method_call` of daemon.c: a chain of `g_strcmp0` tests
on the method name; any other name falls through without a reply.  A handler
that unpacks its parameters is only reached with parameters of its signature
(see `parameters_match`); the remaining arms leave the invocation unanswered. -/
def handle_method_call (PACKAGE_VERSION : String) (daemon : NotifyDaemon)
    (sender : String) (method_name : String) (parameters : MethodParameters) : Outcome :=
  if method_name = "Notify" then
    match parameters with
    | MethodParameters.notify unpacked => handle_notify daemon sender unpacked
    | _ => { daemon := daemon, replies := [], signals := [] }
  else if method_name = "CloseNotification" then
    match parameters with
    | MethodParameters.close_notification id => handle_close_notification daemon sender id
    | _ => { daemon := daemon, replies := [], signals := [] }
  else if method_name = "GetCapabilities" then
    handle_get_capabilities daemon sender
  else if method_name = "GetServerInformation" then
    handle_get_server_information PACKAGE_VERSION daemon sender
  else
    { daemon := daemon, replies := [], signals := [] }

/-! ## The popup of a notification (`nd-bubble.c`) -/

/-- The private data of a popup (`struct NdBubblePrivate` of nd-bubble.c),
reduced to the fields the lifecycle reads or writes; widgets and geometry are
presentation.  `notification` is the notification the popup shows, referred to
by its id; `destroyed` records that `gtk_widget_destroy` was called on it. -/
structure NdBubble where
  notification : Nat
  have_actions : Bool
  url_clicked_lock : Bool
  timeout_id : Nat
  destroyed : Bool
  deriving DecidableEq

/-- The function `timeout_bubble` of nd-bubble.c, the callback of the timeout
source: it clears `timeout_id`, destroys the popup and returns FALSE.  It makes
no call on the notification (the source carries the remark
"FIXME: if transient also close it"). -/
def timeout_bubble (bubble : NdBubble) : NdBubble × Bool :=
  ({ bubble with timeout_id := 0, destroyed := true }, false)

/-- The timeout of a popup fires while the daemon is in the given state: the
event loop runs `timeout_bubble`; nothing in it reaches the daemon, so the
daemon is passed through and no reply or signal is produced. -/
def timeout_fired (daemon : NotifyDaemon) (bubble : NdBubble) : Outcome × NdBubble :=
  ({ daemon := daemon, replies := [], signals := [] }, (timeout_bubble bubble).1)

/-- A popup showing the live notification 2 of `after_notifies 3`, with its
timeout source 17 pending. -/
def second_bubble : NdBubble :=
  { notification := 2, have_actions := false, url_clicked_lock := false,
    timeout_id := 17, destroyed := false }

/-! ## Ids handed out and the id counter -/

/-- The id a signal carries. -/
def signal_id : BusSignal → Nat
  | BusSignal.NotificationClosed _ id _ => id
  | BusSignal.ActionInvoked _ id _ => id

/-- The destination a signal is addressed to. -/
def signal_destination : BusSignal → String
  | BusSignal.NotificationClosed destination _ _ => destination
  | BusSignal.ActionInvoked destination _ _ => destination

/-- The notification ids among the replies. -/
def reply_ids (replies : List Reply) : List Nat :=
  replies.filterMap (fun r =>
    match r with
    | Reply.return_value (ReturnValue.id id) => some id
    | _ => none)

/-- The ids handed to new notifications during a sequence of events, in order:
the id replied by each `Notify` that made the queue grow. -/
def created_ids (daemon : NotifyDaemon) : List Event → List Nat
  | [] => []
  | Event.Notify sender parameters :: es =>
    (if nd_queue_length (handle_notify daemon sender parameters).daemon.queue
          > nd_queue_length daemon.queue
      then reply_ids (handle_notify daemon sender parameters).replies else [])
      ++ created_ids (handle_notify daemon sender parameters).daemon es
  | Event.CloseNotification sender id :: es =>
    created_ids (handle_close_notification daemon sender id).daemon es
  | Event.ActionInvoked id action :: es =>
    created_ids (nd_notification_action_invoked daemon id action).daemon es

/-- The notification a `Notify` with `sample_request` from "client" leaves in
the queue under the given id. -/
def sample_notification (id : Nat) : NdNotification :=
  { id := id, sender := "client", app_name := "App", icon := "icon", summary := "Hi",
    body := "body", actions := [], hints := [], timeout := -1, is_resident := false,
    action_icons := false }

/-- The `Notify` event of "client" with `sample_request 0`. -/
def sample_notify : Event :=
  Event.Notify "client" (sample_request 0)

/-- Lower-casing of a string as the C locale's `tolower` does it, byte by byte:
only the letters A to Z change. -/
def ascii_lower (s : String) : String :=
  String.mk (s.data.map Char.toLower)

/-- The C library function `strcasecmp`, as far as its result is used: 0 when
the two strings are equal up to the case of ASCII letters, non-zero otherwise. -/
def strcasecmp (a b : String) : Int :=
  if ascii_lower a = ascii_lower b then 0
  else if ascii_lower a < ascii_lower b then -1 else 1

/-- One call `add_notification_action (bubble, text, key)` of nd-bubble.c: a
button with the given label text is packed at the end of the actions box and
carries the key as its `_action_key`. -/
structure ActionButton where
  text : String
  key : String
  deriving DecidableEq

/-- The loop of `add_actions` of nd-bubble.c from index `i` on; the argument is
the part of the NULL-terminated array from `actions[i]` up to the NULL.  An
empty rest is `actions[i] == NULL`; a rest of one element is a key whose label
`actions[i + 1]` is NULL, where the loop warns and breaks.  Returns the bubble
and the buttons created, in the order of the `add_notification_action` calls. -/
def add_actions_from : List String → NdBubble → NdBubble × List ActionButton
  | [], bubble => (bubble, [])
  | [_], bubble => (bubble, [])
  | key :: l :: rest, bubble =>
    if strcasecmp key "default" != 0 then
      let next := add_actions_from rest { bubble with have_actions := true }
      (next.1, { text := l, key := key } :: next.2)
    else
      add_actions_from rest bubble

/-- The function `add_actions` of nd-bubble.c; `actions` is what
`nd_notification_get_actions (bubble->priv->notification)` returns, without the
terminating NULL. -/
def add_actions (bubble : NdBubble) (actions : List String) : NdBubble × List ActionButton :=
  add_actions_from actions bubble

/-- The function `clear_actions` of nd-bubble.c: the actions box is hidden and
emptied, and `have_actions` is reset. -/
def clear_actions (bubble : NdBubble) : NdBubble :=
  { bubble with have_actions := false }

/-- The array read as consecutive (key, label) pairs; a last key without a label
forms no pair. -/
def action_pairs : List String → List (String × String)
  | key :: label :: rest => (key, label) :: action_pairs rest
  | _ => []

/-- The key is "default" up to the case of its letters. -/
def is_default_key (key : String) : Bool :=
  ascii_lower key == "default"

/-- The buttons the claim describes: one per pair whose key is not "default",
in array order, labelled with the pair's label. -/
def expected_buttons (actions : List String) : List ActionButton :=
  ((action_pairs actions).filter (fun pair => ! is_default_key pair.1)).map
    (fun pair => { text := pair.2, key := pair.1 })

/-! ## Clicks on a popup (`nd-bubble.c`) -/

/-- The handler `on_activate_link` of nd-bubble.c: it sets `url_clicked_lock`
and returns TRUE.  Spawning the browser for the uri is outside the lifecycle. -/
def on_activate_link (bubble : NdBubble) (_uri : String) : NdBubble × Bool :=
  ({ bubble with url_clicked_lock := true }, true)

/-- The handler `nd_bubble_button_release_event` of nd-bubble.c.  With the lock
set it clears the lock and returns; otherwise it calls
`nd_notification_action_invoked (bubble->priv->notification, "default")` and
destroys the popup.  Returns the bubble, the action keys it invoked on its
notification, in order, and the handler's return value FALSE. -/
def nd_bubble_button_release_event (bubble : NdBubble) : NdBubble × List String × Bool :=
  if bubble.url_clicked_lock then
    ({ bubble with url_clicked_lock := false }, [], false)
  else
    ({ bubble with destroyed := true }, ["default"], false)

/-- The action keys invoked, one after the other, on the notification with the
given id; outcomes are accumulated. -/
def invoke_actions (daemon : NotifyDaemon) (id : Nat) : List String → Outcome
  | [] => { daemon := daemon, replies := [], signals := [] }
  | key :: rest =>
    let first := nd_notification_action_invoked daemon id key
    let later := invoke_actions first.daemon id rest
    { daemon := later.daemon, replies := first.replies ++ later.replies,
      signals := first.signals ++ later.signals }

/-- A button release on the popup while the daemon is in the given state. -/
def button_released (daemon : NotifyDaemon) (bubble : NdBubble) : Outcome × NdBubble :=
  (invoke_actions daemon bubble.notification (nd_bubble_button_release_event bubble).2.1,
    (nd_bubble_button_release_event bubble).1)

/-! ## The timeout source of a popup (`nd-bubble.c`) -/

/-- A popup together with the part of the GLib main loop it uses: the ids of
the timeout sources currently scheduled, the id the next source will receive
(GLib hands out positive ids in increasing order), and a log of the
`g_source_remove` calls made: the id passed and whether a source with this id
existed at the time. -/
structure BubbleLoop where
  bubble : NdBubble
  sources : List Nat
  next_source : Nat
  removals : List (Nat × Bool)
  deriving DecidableEq

/-- GLib's `g_source_remove (id)`: the source with this id, if there is one, is
removed from the main loop; the call is logged. -/
def g_source_remove (state : BubbleLoop) (id : Nat) : BubbleLoop :=
  { state with
    sources := state.sources.filter (fun s => decide (s ≠ id)),
    removals := state.removals ++ [(id, decide (id ∈ state.sources))] }

/-- GLib's `g_timeout_add_seconds`: a new timeout source is scheduled and its
id returned. -/
def g_timeout_add_seconds (state : BubbleLoop) : BubbleLoop × Nat :=
  ({ state with sources := state.sources ++ [state.next_source],
                next_source := state.next_source + 1 }, state.next_source)

/-- The function `add_timeout` of nd-bubble.c: a non-zero `timeout_id` is passed
to `g_source_remove`, then a new timeout is scheduled and its id stored. -/
def add_timeout (state : BubbleLoop) : BubbleLoop :=
  let state := if state.bubble.timeout_id != 0
    then g_source_remove state state.bubble.timeout_id else state
  let scheduled := g_timeout_add_seconds state
  { scheduled.1 with bubble := { scheduled.1.bubble with timeout_id := scheduled.2 } }

/-- The function `nd_bubble_realize` of nd-bubble.c. -/
def nd_bubble_realize (state : BubbleLoop) : BubbleLoop :=
  add_timeout state

/-- The handler `nd_bubble_enter_notify_event` of nd-bubble.c: a non-zero
`timeout_id` is passed to `g_source_remove`; the field itself is not written. -/
def nd_bubble_enter_notify_event (state : BubbleLoop) : BubbleLoop :=
  if state.bubble.timeout_id != 0 then g_source_remove state state.bubble.timeout_id
  else state

/-- The handler `nd_bubble_leave_notify_event` of nd-bubble.c. -/
def nd_bubble_leave_notify_event (state : BubbleLoop) : BubbleLoop :=
  add_timeout state

/-- A scheduled timeout source fires: its callback `timeout_bubble` runs and
returns FALSE, on which GLib drops the source.  Without a scheduled source
nothing fires. -/
def timeout_source_fired (state : BubbleLoop) : BubbleLoop :=
  match state.sources with
  | [] => state
  | id :: _ =>
    { state with bubble := (timeout_bubble state.bubble).1,
                 sources := state.sources.filter (fun s => decide (s ≠ id)) }

/-- The events of a popup that touch its timeout. -/
inductive BubbleEvent where
  | realize
  | enter
  | leave
  | timeout
  deriving DecidableEq

/-- One popup event handled. -/
def bubble_step (state : BubbleLoop) : BubbleEvent → BubbleLoop
  | BubbleEvent.realize => nd_bubble_realize state
  | BubbleEvent.enter => nd_bubble_enter_notify_event state
  | BubbleEvent.leave => nd_bubble_leave_notify_event state
  | BubbleEvent.timeout => timeout_source_fired state

/-- A sequence of popup events handled in order. -/
def bubble_run (state : BubbleLoop) (events : List BubbleEvent) : BubbleLoop :=
  events.foldl bubble_step state

/-- A popup as `nd_bubble_new_for_notification` leaves it (all private fields
zero), in a main loop without sources whose next source id is 1. -/
def new_bubble_loop (notification : Nat) : BubbleLoop :=
  { bubble := { notification := notification, have_actions := false,
                url_clicked_lock := false, timeout_id := 0, destroyed := false },
    sources := [], next_source := 1, removals := [] }

/-- The array made of the given complete (key, label) pairs. -/
def pair_array (pairs : List (String × String)) : List String :=
  pairs.flatMap (fun pair => [pair.1, pair.2])

/-! ## Signal connections made explicit -/

/-- A notification object together with the connections of the daemon's two
handlers to its effects: the number of `g_signal_connect` calls made so far for
`on_notification_close` on "closed" and for `on_notification_action_invoked` on
"action-invoked".  GObject runs a handler once per connection when the effect is
emitted. -/
structure WiredNotification where
  notification : NdNotification
  closed_connections : Nat
  action_connections : Nat
  deriving DecidableEq

/-- The daemon with the connections of every live notification recorded. -/
structure WiredDaemon where
  notifications : List WiredNotification
  next_id : Nat
  deriving DecidableEq

/-- Result of a handler on the daemon with recorded connections. -/
structure WiredOutcome where
  daemon : WiredDaemon
  replies : List Reply
  signals : List BusSignal
  deriving DecidableEq

/-- The daemon without the record of connections. -/
def wired_forget (daemon : WiredDaemon) : NotifyDaemon :=
  { queue := { notifications := daemon.notifications.map (fun w => w.notification),
               next_id := daemon.next_id } }

/-- The lookup of `nd_queue_lookup` on the daemon with recorded connections. -/
def wired_lookup (daemon : WiredDaemon) (id : Nat) : Option WiredNotification :=
  daemon.notifications.find? (fun w => decide (w.notification.id = id))

/-- The call `g_signal_connect (notification, "closed", on_notification_close,
daemon)` of `handle_notify`. -/
def connect_closed (w : WiredNotification) : WiredNotification :=
  { w with closed_connections := w.closed_connections + 1 }

/-- The call `g_signal_connect (notification, "action-invoked",
on_notification_action_invoked, daemon)` of `handle_notify`. -/
def connect_action_invoked (w : WiredNotification) : WiredNotification :=
  { w with action_connections := w.action_connections + 1 }

/-- The handler `handle_notify` of daemon.c with the `g_signal_connect` calls
kept: they stand inside the `if (id == 0)` block that creates the notification,
and nowhere else. -/
def handle_notify_wired (daemon : WiredDaemon) (sender : String)
    (parameters : NotifyParams) : WiredOutcome :=
  if daemon.notifications.length > MAX_NOTIFICATIONS then
    { daemon := daemon, replies := [max_notifications_exceeded], signals := [] }
  else
    let found : Option WiredNotification :=
      if parameters.id > 0 then wired_lookup daemon parameters.id else none
    match found with
    | some existing =>
      let updated : WiredNotification :=
        { existing with
          notification := nd_notification_update existing.notification parameters.app_name
            parameters.icon_name parameters.summary parameters.body parameters.actions
            parameters.hints parameters.timeout }
      { daemon :=
          { daemon with
            notifications :=
              replaceFirst (fun w => decide (w.notification.id = updated.notification.id))
                updated daemon.notifications },
        replies := [Reply.return_value
          (ReturnValue.id (nd_notification_get_id updated.notification))],
        signals := [] }
    | none =>
      let created : WiredNotification :=
        { notification := nd_notification_new sender,
          closed_connections := 0, action_connections := 0 }
      let created := connect_closed created
      let created := connect_action_invoked created
      let updated : WiredNotification :=
        { created with
          notification := nd_notification_update created.notification parameters.app_name
            parameters.icon_name parameters.summary parameters.body parameters.actions
            parameters.hints parameters.timeout }
      let stored : WiredNotification :=
        { updated with notification := { updated.notification with id := daemon.next_id } }
      { daemon := { notifications := daemon.notifications ++ [stored],
                    next_id := (daemon.next_id + 1) % GUINT_MODULUS },
        replies := [Reply.return_value
          (ReturnValue.id (nd_notification_get_id stored.notification))],
        signals := [] }

/-- Emission of the closed effect: `on_notification_close` runs once for every
connection. -/
def wired_closed_effect (w : WiredNotification) (reason : NdNotificationClosedReason)
    (daemon : WiredDaemon) : List BusSignal :=
  (List.replicate w.closed_connections ()).flatMap
    (fun _ => on_notification_close w.notification reason (wired_forget daemon))

/-- The function `nd_notification_close` (see its model above) on the daemon
with recorded connections. -/
def wired_close (daemon : WiredDaemon) (w : WiredNotification)
    (reason : NdNotificationClosedReason) : WiredDaemon × List BusSignal :=
  match wired_lookup daemon w.notification.id with
  | none => (daemon, [])
  | some _ =>
    ({ daemon with
       notifications :=
         daemon.notifications.filter (fun v => decide (v.notification.id ≠ w.notification.id)) },
      wired_closed_effect w reason daemon)

/-- Emission of the action-invoked effect: `on_notification_action_invoked`
runs once for every connection (the count is the first argument), each run
emitting ActionInvoked and closing the notification unless it is resident. -/
def wired_action_effect : Nat → WiredDaemon → WiredNotification → String →
    WiredDaemon × List BusSignal
  | 0, daemon, _, _ => (daemon, [])
  | k + 1, daemon, w, action =>
    let emitted := [BusSignal.ActionInvoked (nd_notification_get_sender w.notification)
      (nd_notification_get_id w.notification) action]
    let closed := if ! nd_notification_get_is_resident w.notification
      then wired_close daemon w ND_NOTIFICATION_CLOSED_USER else (daemon, [])
    let rest := wired_action_effect k closed.1 w action
    (rest.1, emitted ++ closed.2 ++ rest.2)

/-- The handler `handle_close_notification` of daemon.c on the daemon with
recorded connections. -/
def handle_close_notification_wired (daemon : WiredDaemon) (_sender : String)
    (id : Nat) : WiredOutcome :=
  if id = 0 then
    { daemon := daemon, replies := [invalid_id], signals := [] }
  else
    match wired_lookup daemon id with
    | some w =>
      let closed := wired_close daemon w ND_NOTIFICATION_CLOSED_API
      { daemon := closed.1, replies := [Reply.return_value ReturnValue.none],
        signals := closed.2 }
    | none =>
      { daemon := daemon, replies := [Reply.return_value ReturnValue.none], signals := [] }

/-- The popup invokes an action on the notification with the given id, on the
daemon with recorded connections. -/
def action_invoked_wired (daemon : WiredDaemon) (id : Nat) (action : String) :
    WiredOutcome :=
  match wired_lookup daemon id with
  | some w =>
    let invoked := wired_action_effect w.action_connections daemon w action
    { daemon := invoked.1, replies := [], signals := invoked.2 }
  | none => { daemon := daemon, replies := [], signals := [] }

/-- One event handled by the daemon with recorded connections. -/
def wired_step (daemon : WiredDaemon) : Event → WiredOutcome
  | Event.Notify sender parameters => handle_notify_wired daemon sender parameters
  | Event.CloseNotification sender id => handle_close_notification_wired daemon sender id
  | Event.ActionInvoked id action => action_invoked_wired daemon id action

/-- The daemon with recorded connections after a sequence of events. -/
def wired_run (daemon : WiredDaemon) : List Event → WiredDaemon
  | [] => daemon
  | e :: es => wired_run (wired_step daemon e).daemon es

/-- The replies of a sequence of events, one list per event. -/
def wired_replies (daemon : WiredDaemon) : List Event → List (List Reply)
  | [] => []
  | e :: es => (wired_step daemon e).replies :: wired_replies (wired_step daemon e).daemon es

/-- The daemon with recorded connections as `notify_daemon_init` leaves it. -/
def wired_init : WiredDaemon :=
  { notifications := [], next_id := 1 }

/-- Every live notification has each of the two handlers connected once. -/
def connected_once (daemon : WiredDaemon) : Prop :=
  ∀ w ∈ daemon.notifications, w.closed_connections = 1 ∧ w.action_connections = 1

/-- The `Notify` events of a list of requests (sender and arguments). -/
def notify_events (requests : List (String × NotifyParams)) : List Event :=
  requests.map (fun q => Event.Notify q.1 q.2)

/-! ## Lemmas about the queue -/

theorem lookup_some_id {queue : NdQueue} {id : Nat} {n : NdNotification}
    (h : nd_queue_lookup queue id = some n) : n.id = id := by
  unfold nd_queue_lookup at h
  have := List.find?_some h
  simpa using this

theorem lookup_none_iff {queue : NdQueue} {id : Nat} :
    nd_queue_lookup queue id = none ↔ ∀ n ∈ queue.notifications, n.id ≠ id := by
  unfold nd_queue_lookup
  simp [List.find?_eq_none]

theorem lookup_remove_self (queue : NdQueue) (id : Nat) :
    nd_queue_lookup (nd_queue_remove queue id) id = none := by
  rw [lookup_none_iff]
  intro n hn
  simp only [nd_queue_remove, List.mem_filter] at hn
  simpa using hn.2

theorem find_filter_of_imp {α : Type} (p q : α → Bool) (l : List α)
    (h : ∀ x, q x = true → p x = true) : (l.filter p).find? q = l.find? q := by
  induction l with
  | nil => rfl
  | cons x xs ih =>
    cases hq : q x
    · cases hp : p x
      · rw [List.filter_cons_of_neg (by simp [hp]), List.find?_cons_of_neg _ (by simp [hq]), ih]
      · rw [List.filter_cons_of_pos hp, List.find?_cons_of_neg _ (by simp [hq]),
          List.find?_cons_of_neg _ (by simp [hq]), ih]
    · rw [List.filter_cons_of_pos (h x hq), List.find?_cons_of_pos _ hq,
        List.find?_cons_of_pos _ hq]

theorem find_filter_ne (l : List NdNotification) (id other : Nat) (h : other ≠ id) :
    (l.filter (fun n => decide (n.id ≠ id))).find? (fun n => decide (n.id = other))
      = l.find? (fun n => decide (n.id = other)) := by
  apply find_filter_of_imp
  intro x hx
  have : x.id = other := by simpa using hx
  simp [this, h]

theorem lookup_remove_other (queue : NdQueue) (id other : Nat) (h : other ≠ id) :
    nd_queue_lookup (nd_queue_remove queue id) other = nd_queue_lookup queue other := by
  unfold nd_queue_lookup nd_queue_remove
  exact find_filter_ne queue.notifications id other h

theorem replaceFirst_length {α : Type} (p : α → Bool) (a : α) (l : List α) :
    (replaceFirst p a l).length = l.length := by
  induction l with
  | nil => rfl
  | cons x xs ih =>
    unfold replaceFirst
    split
    · rfl
    · simp [ih]

theorem replaceFirst_map {α β : Type} (f : α → β) (p : α → Bool) (a : α) (l : List α)
    (h : ∀ x, p x = true → f x = f a) : (replaceFirst p a l).map f = l.map f := by
  induction l with
  | nil => rfl
  | cons x xs ih =>
    unfold replaceFirst
    split
    · next hp => simp [h x hp]
    · simp [ih]

theorem find_replaceFirst_same {α : Type} (p : α → Bool) (a : α) (l : List α)
    (ha : p a = true) (h : (l.find? p).isSome) : (replaceFirst p a l).find? p = some a := by
  induction l with
  | nil => simp at h
  | cons x xs ih =>
    unfold replaceFirst
    cases hp : p x
    · rw [List.find?_cons_of_neg _ (by simp [hp])] at h
      simp only [Bool.false_eq_true, if_false]
      rw [List.find?_cons_of_neg _ (by simp [hp])]
      exact ih h
    · simp only [if_true]
      rw [List.find?_cons_of_pos _ ha]

theorem find_replaceFirst_other {α : Type} (p q : α → Bool) (a : α) (l : List α)
    (ha : q a = false) (h : ∀ x, p x = true → q x = false) :
    (replaceFirst p a l).find? q = l.find? q := by
  induction l with
  | nil => rfl
  | cons x xs ih =>
    unfold replaceFirst
    cases hp : p x
    · simp only [Bool.false_eq_true, if_false]
      cases hq : q x
      · rw [List.find?_cons_of_neg _ (by simp [hq]), List.find?_cons_of_neg _ (by simp [hq]), ih]
      · rw [List.find?_cons_of_pos _ hq, List.find?_cons_of_pos _ hq]
    · simp only [if_true]
      rw [List.find?_cons_of_neg _ (by simp [ha]), List.find?_cons_of_neg _ (by simp [h x hp])]

theorem lookup_write_back_same (queue : NdQueue) (n m : NdNotification)
    (h : nd_queue_lookup queue m.id = some n) :
    nd_queue_lookup (nd_queue_write_back queue m) m.id = some m := by
  unfold nd_queue_lookup nd_queue_write_back
  apply find_replaceFirst_same
  · simp
  · unfold nd_queue_lookup at h
    simp [h]

theorem lookup_write_back_other (queue : NdQueue) (m : NdNotification) (other : Nat)
    (h : other ≠ m.id) :
    nd_queue_lookup (nd_queue_write_back queue m) other = nd_queue_lookup queue other := by
  unfold nd_queue_lookup nd_queue_write_back
  apply find_replaceFirst_other
  · simpa using Ne.symm h
  · intro x hx
    have : x.id = m.id := by simpa using hx
    simpa [this] using Ne.symm h

theorem write_back_ids (queue : NdQueue) (m : NdNotification) :
    (nd_queue_write_back queue m).notifications.map (fun n => n.id)
      = queue.notifications.map (fun n => n.id) := by
  unfold nd_queue_write_back
  apply replaceFirst_map
  intro x hx
  simpa using hx

theorem lookup_add_other (queue : NdQueue) (n : NdNotification) (other : Nat)
    (h : other ≠ queue.next_id) (hnone : nd_queue_lookup queue other = none) :
    nd_queue_lookup (nd_queue_add queue n).1 other = none := by
  rw [lookup_none_iff] at hnone ⊢
  intro x hx
  simp only [nd_queue_add, List.mem_append, List.mem_singleton] at hx
  rcases hx with hx | hx
  · exact hnone x hx
  · rw [hx]
    exact Ne.symm h

theorem close_unknown_outcome (daemon : NotifyDaemon) (sender : String)
    (id : Nat) (hpos : 0 < id) (hmiss : nd_queue_lookup daemon.queue id = none) :
    handle_close_notification daemon sender id
      = Outcome.mk daemon [Reply.return_value ReturnValue.none] [] := by
  unfold handle_close_notification
  rw [if_neg (Nat.pos_iff_ne_zero.mp hpos)]
  simp only [hmiss]

theorem close_live_outcome (daemon : NotifyDaemon) (sender : String)
    (id : Nat) (n : NdNotification) (hpos : 0 < id)
    (hlive : nd_queue_lookup daemon.queue id = some n) :
    handle_close_notification daemon sender id
      = Outcome.mk (NotifyDaemon.mk (nd_queue_remove daemon.queue id))
          [Reply.return_value ReturnValue.none]
          [BusSignal.NotificationClosed n.sender id ND_NOTIFICATION_CLOSED_API] := by
  have hid : n.id = id := lookup_some_id hlive
  unfold handle_close_notification
  rw [if_neg (Nat.pos_iff_ne_zero.mp hpos)]
  simp only [hlive, nd_notification_close, nd_notification_get_id, hid,
    on_notification_close, nd_notification_get_sender]

/-! ## Capacity -/

/-- C1: whenever the queue holds more than `MAX_NOTIFICATIONS` live
notifications, `handle_notify` answers any request (any sender, any
`replaces_id`, any content) with the error MaxNotificationsExceeded, leaves the
daemon as it was (same live notifications with the same content, same id
counter) and emits no signal. -/
theorem handle_notify_over_capacity (daemon : NotifyDaemon) (sender : String)
    (parameters : NotifyParams)
    (h : nd_queue_length daemon.queue > MAX_NOTIFICATIONS) :
    (handle_notify daemon sender parameters).replies = [max_notifications_exceeded]
      ∧ (handle_notify daemon sender parameters).daemon = daemon
      ∧ (handle_notify daemon sender parameters).signals = [] := by
  unfold handle_notify
  rw [if_pos h]
  exact ⟨rfl, rfl, rfl⟩

/-- Witness for C1: the daemon after 21 accepted requests holds 21 live
notifications, and a request replacing the live id 7 is rejected there. -/
theorem handle_notify_over_capacity_witness :
    nd_queue_length (after_notifies 21).queue > MAX_NOTIFICATIONS
      ∧ (handle_notify (after_notifies 21) "client" (sample_request 7)).replies
          = [max_notifications_exceeded]
      ∧ (handle_notify (after_notifies 21) "client" (sample_request 7)).daemon
          = after_notifies 21
      ∧ (handle_notify (after_notifies 21) "client" (sample_request 7)).signals = [] :=
  ⟨by decide, handle_notify_over_capacity (after_notifies 21) "client" (sample_request 7)
    (by decide)⟩

/-- C2: evaluation of the code on the scenario of the claim.  Starting from the
empty queue, the 21st consecutive `Notify` with `replaces_id = 0` is not
rejected: it is answered with the new id 21 and the queue then holds 21 live
notifications.  The test `length > MAX_NOTIFICATIONS` only fires on the 22nd. -/
theorem twenty_first_notify_is_accepted :
    (handle_notify (after_notifies 20) "client" (sample_request 0)).replies
        = [Reply.return_value (ReturnValue.id 21)]
      ∧ (handle_notify (after_notifies 20) "client" (sample_request 0)).replies
        ≠ [max_notifications_exceeded]
      ∧ nd_queue_length
          (handle_notify (after_notifies 20) "client" (sample_request 0)).daemon.queue = 21 := by
  decide

/-- C3: evaluation of the code on a reachable state that breaks the bound.  The
state reached from the empty queue by 21 `Notify` events holds 21 live
notifications, more than `MAX_NOTIFICATIONS`. -/
theorem live_count_reaches_twenty_one :
    nd_queue_length
        (run notify_daemon_init
          (List.replicate 21 (Event.Notify "client" (sample_request 0)))).queue = 21
      ∧ ¬ nd_queue_length
        (run notify_daemon_init
          (List.replicate 21 (Event.Notify "client" (sample_request 0)))).queue
          ≤ MAX_NOTIFICATIONS := by
  decide

/-! ## Replace and create -/

/-- C4: when the queue holds at most `MAX_NOTIFICATIONS` live notifications and
the request's `replaces_id` X > 0 resolves to the live notification `n`,
`handle_notify` replies with X; afterwards X resolves to `n` with its content
fields overwritten by the request's (same id, same sender), every other id
resolves as before, the list of live ids, the live count and the id counter are
unchanged (nothing is created or added), and no signal is emitted. -/
theorem handle_notify_replace (daemon : NotifyDaemon) (sender : String)
    (parameters : NotifyParams) (n : NdNotification)
    (hcap : nd_queue_length daemon.queue ≤ MAX_NOTIFICATIONS)
    (hpos : 0 < parameters.id)
    (hlive : nd_queue_lookup daemon.queue parameters.id = some n) :
    (handle_notify daemon sender parameters).replies
        = [Reply.return_value (ReturnValue.id parameters.id)]
      ∧ nd_queue_lookup (handle_notify daemon sender parameters).daemon.queue parameters.id
        = some { id := parameters.id, sender := n.sender,
                 app_name := parameters.app_name, icon := parameters.icon_name,
                 summary := parameters.summary, body := parameters.body,
                 actions := parameters.actions, hints := parameters.hints,
                 timeout := parameters.timeout,
                 is_resident := hint_flag parameters.hints "resident",
                 action_icons := hint_flag parameters.hints "action-icons" }
      ∧ (∀ other, other ≠ parameters.id →
          nd_queue_lookup (handle_notify daemon sender parameters).daemon.queue other
            = nd_queue_lookup daemon.queue other)
      ∧ live_ids (handle_notify daemon sender parameters).daemon = live_ids daemon
      ∧ nd_queue_length (handle_notify daemon sender parameters).daemon.queue
        = nd_queue_length daemon.queue
      ∧ (handle_notify daemon sender parameters).daemon.queue.next_id = daemon.queue.next_id
      ∧ (handle_notify daemon sender parameters).signals = [] := by
  have hid : n.id = parameters.id := lookup_some_id hlive
  have hnot : ¬ nd_queue_length daemon.queue > MAX_NOTIFICATIONS := Nat.not_lt.mpr hcap
  have hrun : handle_notify daemon sender parameters
      = Outcome.mk
          (NotifyDaemon.mk (nd_queue_write_back daemon.queue
            (nd_notification_update n parameters.app_name parameters.icon_name
              parameters.summary parameters.body parameters.actions parameters.hints
              parameters.timeout)))
          [Reply.return_value (ReturnValue.id n.id)] [] := by
    unfold handle_notify
    rw [if_neg hnot]
    simp only [hpos, if_true, hlive]
    rfl
  have hupd : nd_notification_update n parameters.app_name parameters.icon_name
        parameters.summary parameters.body parameters.actions parameters.hints
        parameters.timeout
      = { id := parameters.id, sender := n.sender,
          app_name := parameters.app_name, icon := parameters.icon_name,
          summary := parameters.summary, body := parameters.body,
          actions := parameters.actions, hints := parameters.hints,
          timeout := parameters.timeout,
          is_resident := hint_flag parameters.hints "resident",
          action_icons := hint_flag parameters.hints "action-icons" } := by
    unfold nd_notification_update
    rw [hid]
  rw [hrun, hupd]
  refine ⟨by rw [hid], ?_, ?_, ?_, ?_, rfl, rfl⟩
  · exact lookup_write_back_same daemon.queue n _ hlive
  · intro other hother
    exact lookup_write_back_other daemon.queue _ other hother
  · exact write_back_ids daemon.queue _
  · exact replaceFirst_length _ _ _

/-- Witness for C4: after three accepted requests, a request replacing the live
id 2 with resident content. -/
theorem handle_notify_replace_witness :
    (nd_queue_length (after_notifies 3).queue ≤ MAX_NOTIFICATIONS
      ∧ 0 < (resident_request 2).id
      ∧ nd_queue_lookup (after_notifies 3).queue (resident_request 2).id
          = some second_notification)
    ∧ (replace_outcome.replies = [Reply.return_value (ReturnValue.id 2)]
      ∧ nd_queue_lookup replace_outcome.daemon.queue 2
        = some { id := 2, sender := "client",
                 app_name := "App", icon := "icon", summary := "Hi", body := "body",
                 actions := [], hints := [("resident", HintValue.boolean true)],
                 timeout := -1,
                 is_resident := hint_flag [("resident", HintValue.boolean true)] "resident",
                 action_icons := hint_flag [("resident", HintValue.boolean true)] "action-icons" }
      ∧ (∀ other, other ≠ 2 →
          nd_queue_lookup replace_outcome.daemon.queue other
            = nd_queue_lookup (after_notifies 3).queue other)
      ∧ live_ids replace_outcome.daemon = live_ids (after_notifies 3)
      ∧ nd_queue_length replace_outcome.daemon.queue
        = nd_queue_length (after_notifies 3).queue
      ∧ replace_outcome.daemon.queue.next_id = (after_notifies 3).queue.next_id
      ∧ replace_outcome.signals = []) :=
  ⟨⟨by decide, by decide, by decide⟩,
    handle_notify_replace (after_notifies 3) "other" (resident_request 2)
      second_notification (by decide) (by decide) (by decide)⟩

/-- C5: when the queue holds at most `MAX_NOTIFICATIONS` live notifications and
the request's `replaces_id` X does not resolve (so in particular for every
stale or never issued X > 0), `handle_notify` yields the same outcome (reply,
daemon, signals) as for the same request with `replaces_id = 0`: the reply is a
return value, not an error, and carries the id counter's value, which does not
depend on X; a notification created for the sender with the request's content
is appended to the queue under that id, and the live count grows by one. -/
theorem handle_notify_stale_id (daemon : NotifyDaemon) (sender : String)
    (parameters : NotifyParams)
    (hcap : nd_queue_length daemon.queue ≤ MAX_NOTIFICATIONS)
    (hstale : nd_queue_lookup daemon.queue parameters.id = none) :
    handle_notify daemon sender parameters
        = handle_notify daemon sender { parameters with id := 0 }
      ∧ (handle_notify daemon sender parameters).replies
        = [Reply.return_value (ReturnValue.id daemon.queue.next_id)]
      ∧ (handle_notify daemon sender parameters).daemon.queue.notifications
        = daemon.queue.notifications ++
            [{ id := daemon.queue.next_id, sender := sender,
               app_name := parameters.app_name, icon := parameters.icon_name,
               summary := parameters.summary, body := parameters.body,
               actions := parameters.actions, hints := parameters.hints,
               timeout := parameters.timeout,
               is_resident := hint_flag parameters.hints "resident",
               action_icons := hint_flag parameters.hints "action-icons" }]
      ∧ nd_queue_length (handle_notify daemon sender parameters).daemon.queue
        = nd_queue_length daemon.queue + 1
      ∧ (handle_notify daemon sender parameters).signals = [] := by
  have hnot : ¬ nd_queue_length daemon.queue > MAX_NOTIFICATIONS := Nat.not_lt.mpr hcap
  have hrun : ∀ p : NotifyParams,
      (p.id = 0 ∨ nd_queue_lookup daemon.queue p.id = none) →
      handle_notify daemon sender p
        = Outcome.mk
            (NotifyDaemon.mk (nd_queue_add daemon.queue
              (nd_notification_update (nd_notification_new sender) p.app_name p.icon_name
                p.summary p.body p.actions p.hints p.timeout)).1)
            [Reply.return_value (ReturnValue.id daemon.queue.next_id)] [] := by
    intro p hp
    unfold handle_notify
    rw [if_neg hnot]
    have hfound : (if p.id > 0 then nd_queue_lookup daemon.queue p.id else none) = none := by
      rcases hp with hp | hp
      · simp [hp]
      · simp [hp]
    simp only [hfound]
    rfl
  rw [hrun parameters (Or.inr hstale)]
  refine ⟨?_, rfl, rfl, ?_, rfl⟩
  · rw [hrun { parameters with id := 0 } (Or.inl rfl)]
  · simp [nd_queue_length, nd_queue_add]

/-- Witness for C5: after three accepted requests the id 9 does not resolve; a
request naming it creates the notification 4. -/
theorem handle_notify_stale_id_witness :
    (nd_queue_length (after_notifies 3).queue ≤ MAX_NOTIFICATIONS
      ∧ 0 < (sample_request 9).id
      ∧ nd_queue_lookup (after_notifies 3).queue (sample_request 9).id = none)
    ∧ (stale_outcome = handle_notify (after_notifies 3) "other" (sample_request 0)
      ∧ stale_outcome.replies = [Reply.return_value (ReturnValue.id 4)]
      ∧ stale_outcome.daemon.queue.notifications
        = (after_notifies 3).queue.notifications ++
            [{ id := 4, sender := "other",
               app_name := "App", icon := "icon", summary := "Hi", body := "body",
               actions := [], hints := [], timeout := -1,
               is_resident := hint_flag [] "resident",
               action_icons := hint_flag [] "action-icons" }]
      ∧ nd_queue_length stale_outcome.daemon.queue
        = nd_queue_length (after_notifies 3).queue + 1
      ∧ stale_outcome.signals = []) :=
  ⟨⟨by decide, by decide, by decide⟩,
    handle_notify_stale_id (after_notifies 3) "other" (sample_request 9)
      (by decide) (by decide)⟩

/-! ## CloseNotification -/

/-- C6: for every daemon and sender, `handle_close_notification` with id 0
replies with the error InvalidId and nothing else happens: the outcome does not
depend on the queue (the id test returns before the lookup), the daemon is
unchanged and no signal is emitted. -/
theorem handle_close_notification_zero (daemon : NotifyDaemon) (sender : String) :
    handle_close_notification daemon sender 0
      = { daemon := daemon, replies := [invalid_id], signals := [] } := by
  unfold handle_close_notification
  rfl

/-- C7: for every daemon and every id > 0 that does not resolve in the queue,
`handle_close_notification` replies with the empty return value (no error),
emits no signal and leaves the daemon unchanged. -/
theorem handle_close_notification_unknown (daemon : NotifyDaemon) (sender : String)
    (id : Nat) (hpos : 0 < id) (hmiss : nd_queue_lookup daemon.queue id = none) :
    handle_close_notification daemon sender id
      = { daemon := daemon, replies := [Reply.return_value ReturnValue.none],
          signals := [] } := by
  exact close_unknown_outcome daemon sender id hpos hmiss

/-- Witness for C7: id 9 is unknown after three accepted requests. -/
theorem handle_close_notification_unknown_witness :
    (0 < 9 ∧ nd_queue_lookup (after_notifies 3).queue 9 = none)
    ∧ handle_close_notification (after_notifies 3) "client" 9
      = { daemon := after_notifies 3, replies := [Reply.return_value ReturnValue.none],
          signals := [] } :=
  ⟨⟨by decide, by decide⟩,
    handle_close_notification_unknown (after_notifies 3) "client" 9 (by decide) (by decide)⟩

/-- C8: for every daemon and every id > 0 that resolves to the live
notification `n`, `handle_close_notification` closes `n` with the reason
`ND_NOTIFICATION_CLOSED_API` (one NotificationClosed signal with that reason, to
the sender of `n`), replies with the empty return value, and afterwards the id
no longer resolves while every other id resolves exactly as before. -/
theorem handle_close_notification_live (daemon : NotifyDaemon) (sender : String)
    (id : Nat) (n : NdNotification) (hpos : 0 < id)
    (hlive : nd_queue_lookup daemon.queue id = some n) :
    (handle_close_notification daemon sender id).replies
        = [Reply.return_value ReturnValue.none]
      ∧ (handle_close_notification daemon sender id).signals
        = [BusSignal.NotificationClosed n.sender id ND_NOTIFICATION_CLOSED_API]
      ∧ nd_queue_lookup (handle_close_notification daemon sender id).daemon.queue id = none
      ∧ (∀ other, other ≠ id →
          nd_queue_lookup (handle_close_notification daemon sender id).daemon.queue other
            = nd_queue_lookup daemon.queue other) := by
  rw [close_live_outcome daemon sender id n hpos hlive]
  refine ⟨rfl, rfl, ?_, ?_⟩
  · exact lookup_remove_self daemon.queue id
  · intro other hother
    exact lookup_remove_other daemon.queue id other hother

/-- Witness for C8: closing the live id 2 after three accepted requests. -/
theorem handle_close_notification_live_witness :
    (0 < 2 ∧ nd_queue_lookup (after_notifies 3).queue 2 = some second_notification)
    ∧ ((handle_close_notification (after_notifies 3) "client" 2).replies
        = [Reply.return_value ReturnValue.none]
      ∧ (handle_close_notification (after_notifies 3) "client" 2).signals
        = [BusSignal.NotificationClosed second_notification.sender 2
            ND_NOTIFICATION_CLOSED_API]
      ∧ nd_queue_lookup (handle_close_notification (after_notifies 3) "client" 2).daemon.queue 2
        = none
      ∧ (∀ other, other ≠ 2 →
          nd_queue_lookup
              (handle_close_notification (after_notifies 3) "client" 2).daemon.queue other
            = nd_queue_lookup (after_notifies 3).queue other)) :=
  ⟨⟨by decide, by decide⟩,
    handle_close_notification_live (after_notifies 3) "client" 2 second_notification
      (by decide) (by decide)⟩

/-! ## Action invoked -/

/-- C10: for every live notification `n` and every action key, the handler
`on_notification_action_invoked` emits exactly one `ActionInvoked (id, key)`
signal, first; when `n` is not resident exactly one
`NotificationClosed (id, ND_NOTIFICATION_CLOSED_USER)` follows it and the id no
longer resolves; when `n` is resident nothing follows, the daemon is unchanged
and the id still resolves to `n`. -/
theorem on_notification_action_invoked_live (daemon : NotifyDaemon)
    (n : NdNotification) (action : String)
    (hlive : nd_queue_lookup daemon.queue n.id = some n) :
    (on_notification_action_invoked n action daemon).2
        = BusSignal.ActionInvoked n.sender n.id action ::
            (if n.is_resident then []
             else [BusSignal.NotificationClosed n.sender n.id ND_NOTIFICATION_CLOSED_USER])
      ∧ nd_queue_lookup (on_notification_action_invoked n action daemon).1.queue n.id
        = (if n.is_resident then some n else none)
      ∧ (n.is_resident = true → (on_notification_action_invoked n action daemon).1 = daemon) := by
  cases hres : n.is_resident
  · have hrun : on_notification_action_invoked n action daemon
        = (NotifyDaemon.mk (nd_queue_remove daemon.queue n.id),
            [BusSignal.ActionInvoked n.sender n.id action,
             BusSignal.NotificationClosed n.sender n.id ND_NOTIFICATION_CLOSED_USER]) := by
      simp only [on_notification_action_invoked, nd_notification_get_is_resident, hres,
        nd_notification_close, nd_notification_get_id, hlive, on_notification_close,
        nd_notification_get_sender]
      rfl
    rw [hrun]
    refine ⟨by simp, ?_, by simp⟩
    simpa using lookup_remove_self daemon.queue n.id
  · have hrun : on_notification_action_invoked n action daemon
        = (daemon, [BusSignal.ActionInvoked n.sender n.id action]) := by
      simp only [on_notification_action_invoked, nd_notification_get_is_resident, hres,
        nd_notification_get_id, nd_notification_get_sender]
      rfl
    rw [hrun]
    exact ⟨by simp, by simpa using hlive, fun _ => rfl⟩

/-- Witness for C10: an action invoked on the live, non-resident notification 2
of `after_notifies 3`. -/
theorem on_notification_action_invoked_live_witness :
    nd_queue_lookup (after_notifies 3).queue second_notification.id = some second_notification
    ∧ ((on_notification_action_invoked second_notification "default" (after_notifies 3)).2
        = BusSignal.ActionInvoked second_notification.sender second_notification.id "default" ::
            (if second_notification.is_resident then []
             else [BusSignal.NotificationClosed second_notification.sender
                    second_notification.id ND_NOTIFICATION_CLOSED_USER])
      ∧ nd_queue_lookup
          (on_notification_action_invoked second_notification "default"
            (after_notifies 3)).1.queue second_notification.id
        = (if second_notification.is_resident then some second_notification else none)
      ∧ (second_notification.is_resident = true →
          (on_notification_action_invoked second_notification "default" (after_notifies 3)).1
            = after_notifies 3)) :=
  ⟨by decide,
    on_notification_action_invoked_live (after_notifies 3) second_notification "default"
      (by decide)⟩

/-! ## At most one NotificationClosed per notification -/

theorem handle_notify_cases (daemon : NotifyDaemon) (sender : String)
    (parameters : NotifyParams) :
    (nd_queue_length daemon.queue > MAX_NOTIFICATIONS
        ∧ handle_notify daemon sender parameters
          = Outcome.mk daemon [max_notifications_exceeded] [])
      ∨ (∃ n, nd_queue_lookup daemon.queue parameters.id = some n
        ∧ handle_notify daemon sender parameters
          = Outcome.mk
              (NotifyDaemon.mk (nd_queue_write_back daemon.queue
                (nd_notification_update n parameters.app_name parameters.icon_name
                  parameters.summary parameters.body parameters.actions parameters.hints
                  parameters.timeout)))
              [Reply.return_value (ReturnValue.id n.id)] [])
      ∨ (handle_notify daemon sender parameters
          = Outcome.mk
              (NotifyDaemon.mk (nd_queue_add daemon.queue
                (nd_notification_update (nd_notification_new sender) parameters.app_name
                  parameters.icon_name parameters.summary parameters.body parameters.actions
                  parameters.hints parameters.timeout)).1)
              [Reply.return_value (ReturnValue.id daemon.queue.next_id)] []) := by
  by_cases hcap : nd_queue_length daemon.queue > MAX_NOTIFICATIONS
  · left
    refine ⟨hcap, ?_⟩
    unfold handle_notify
    rw [if_pos hcap]
    rfl
  · right
    by_cases hp : parameters.id > 0
    · cases hl : nd_queue_lookup daemon.queue parameters.id with
      | none =>
        right
        unfold handle_notify
        rw [if_neg hcap]
        simp only [hp, if_true, hl]
        rfl
      | some n =>
        left
        refine ⟨n, rfl, ?_⟩
        unfold handle_notify
        rw [if_neg hcap]
        simp only [hp, if_true, hl]
        rfl
    · right
      unfold handle_notify
      rw [if_neg hcap]
      simp only [hp, if_false]
      rfl

theorem emitted_cons (daemon : NotifyDaemon) (e : Event) (es : List Event) :
    emitted daemon (e :: es) = (step daemon e).signals ++ emitted (step daemon e).daemon es := by
  simp [emitted, trace]

/-- C11: on the daemon as `notify_daemon_init` leaves it (empty queue, no id
handed out yet), a `Notify` request with `replaces_id = 0`, from any sender and
with any content, replies with id 1. -/
theorem first_notify_returns_one (sender : String) (parameters : NotifyParams)
    (hzero : parameters.id = 0) :
    (handle_notify notify_daemon_init sender parameters).replies
      = [Reply.return_value (ReturnValue.id 1)] := by
  unfold handle_notify
  rw [if_neg (by decide)]
  simp only [hzero, Nat.lt_irrefl, if_false]
  rfl

/-- Witness for C11: the request of the end-to-end example of the spec. -/
theorem first_notify_returns_one_witness :
    (sample_request 0).id = 0
      ∧ (handle_notify notify_daemon_init "client" (sample_request 0)).replies
        = [Reply.return_value (ReturnValue.id 1)] :=
  ⟨rfl, first_notify_returns_one "client" (sample_request 0) rfl⟩

/-- C16: for every daemon and sender, `handle_get_capabilities` replies with
exactly the eight strings actions, body, body-hyperlinks, body-markup,
icon-static, sound, persistence, action-icons, in this order; they are pairwise
different; the daemon is unchanged and no signal is emitted. -/
theorem handle_get_capabilities_fixed (daemon : NotifyDaemon) (sender : String) :
    handle_get_capabilities daemon sender
        = { daemon := daemon,
            replies := [Reply.return_value (ReturnValue.capabilities
              ["actions", "body", "body-hyperlinks", "body-markup", "icon-static",
               "sound", "persistence", "action-icons"])],
            signals := [] }
      ∧ ["actions", "body", "body-hyperlinks", "body-markup", "icon-static",
         "sound", "persistence", "action-icons"].Nodup
      ∧ ["actions", "body", "body-hyperlinks", "body-markup", "icon-static",
         "sound", "persistence", "action-icons"].length = 8 := by
  refine ⟨rfl, by decide, rfl⟩

/-- C17: for every daemon, sender and package version, the handler
`handle_get_server_information` replies with the 4-tuple
("Notification Daemon", "GNOME", package version, "1.2"), leaves the daemon
unchanged and emits no signal. -/
theorem handle_get_server_information_fixed (PACKAGE_VERSION : String)
    (daemon : NotifyDaemon) (sender : String) :
    handle_get_server_information PACKAGE_VERSION daemon sender
      = { daemon := daemon,
          replies := [Reply.return_value
            (ReturnValue.information "Notification Daemon" "GNOME" PACKAGE_VERSION "1.2")],
          signals := [] } := by
  rfl

theorem handle_notify_reply_shape (daemon : NotifyDaemon) (sender : String)
    (parameters : NotifyParams) :
    ∃ r, (handle_notify daemon sender parameters).replies = [r]
      ∧ (r = max_notifications_exceeded ∨ ∃ id, r = Reply.return_value (ReturnValue.id id)) := by
  rcases handle_notify_cases daemon sender parameters with ⟨_, h⟩ | ⟨n, _, h⟩ | h
  · exact ⟨_, by rw [h], Or.inl rfl⟩
  · exact ⟨_, by rw [h], Or.inr ⟨n.id, rfl⟩⟩
  · exact ⟨_, by rw [h], Or.inr ⟨daemon.queue.next_id, rfl⟩⟩

theorem handle_close_notification_reply_shape (daemon : NotifyDaemon) (sender : String)
    (id : Nat) :
    ∃ r, (handle_close_notification daemon sender id).replies = [r]
      ∧ (r = invalid_id ∨ r = Reply.return_value ReturnValue.none) := by
  unfold handle_close_notification
  split
  · exact ⟨_, rfl, Or.inl rfl⟩
  · split
    · exact ⟨_, rfl, Or.inr rfl⟩
    · exact ⟨_, rfl, Or.inr rfl⟩

/-- C19: for every daemon, sender and package version, a call of
`handle_method_call` whose method name is Notify, CloseNotification,
GetCapabilities or GetServerInformation (with parameters of the method's
signature) produces exactly one reply for the invocation, and that reply is
either the error MaxNotificationsExceeded, or the error InvalidId, or a return
value. -/
theorem handle_method_call_one_reply (PACKAGE_VERSION : String) (daemon : NotifyDaemon)
    (sender : String) (method_name : String) (parameters : MethodParameters)
    (hname : method_name = "Notify" ∨ method_name = "CloseNotification"
      ∨ method_name = "GetCapabilities" ∨ method_name = "GetServerInformation")
    (hmatch : parameters_match method_name parameters = true) :
    ∃ r, (handle_method_call PACKAGE_VERSION daemon sender method_name parameters).replies = [r]
      ∧ (r = max_notifications_exceeded ∨ r = invalid_id
          ∨ ∃ v, r = Reply.return_value v) := by
  rcases hname with h | h | h | h
  · subst h
    cases parameters with
    | notify unpacked =>
      obtain ⟨r, hr, hshape⟩ := handle_notify_reply_shape daemon sender unpacked
      refine ⟨r, ?_, ?_⟩
      · simpa [handle_method_call] using hr
      · rcases hshape with h1 | ⟨id, h2⟩
        · exact Or.inl h1
        · exact Or.inr (Or.inr ⟨_, h2⟩)
    | close_notification id => exact absurd hmatch (by simp [parameters_match])
    | empty => exact absurd hmatch (by simp [parameters_match])
  · subst h
    cases parameters with
    | notify unpacked => exact absurd hmatch (by simp [parameters_match])
    | close_notification id =>
      obtain ⟨r, hr, hshape⟩ := handle_close_notification_reply_shape daemon sender id
      refine ⟨r, ?_, ?_⟩
      · have hne : ¬ ("CloseNotification" = "Notify") := by decide
        simpa [handle_method_call, hne] using hr
      · rcases hshape with h1 | h2
        · exact Or.inr (Or.inl h1)
        · exact Or.inr (Or.inr ⟨_, h2⟩)
    | empty => exact absurd hmatch (by simp [parameters_match])
  · subst h
    have h1 : ¬ ("GetCapabilities" = "Notify") := by decide
    have h2 : ¬ ("GetCapabilities" = "CloseNotification") := by decide
    have hrun : handle_method_call PACKAGE_VERSION daemon sender "GetCapabilities" parameters
        = handle_get_capabilities daemon sender := by
      unfold handle_method_call
      rw [if_neg h1, if_neg h2, if_pos rfl]
    rw [hrun]
    exact ⟨_, rfl, Or.inr (Or.inr ⟨_, rfl⟩)⟩
  · subst h
    have h1 : ¬ ("GetServerInformation" = "Notify") := by decide
    have h2 : ¬ ("GetServerInformation" = "CloseNotification") := by decide
    have h3 : ¬ ("GetServerInformation" = "GetCapabilities") := by decide
    have hrun : handle_method_call PACKAGE_VERSION daemon sender "GetServerInformation"
          parameters
        = handle_get_server_information PACKAGE_VERSION daemon sender := by
      unfold handle_method_call
      rw [if_neg h1, if_neg h2, if_neg h3, if_pos rfl]
    rw [hrun]
    exact ⟨_, rfl, Or.inr (Or.inr ⟨_, rfl⟩)⟩

/-- Witness for C19: a `Notify` call on the daemon that is over capacity. -/
theorem handle_method_call_one_reply_witness :
    (("Notify" = "Notify" ∨ "Notify" = "CloseNotification"
        ∨ "Notify" = "GetCapabilities" ∨ "Notify" = "GetServerInformation")
      ∧ parameters_match "Notify" (MethodParameters.notify (sample_request 0)) = true)
    ∧ ∃ r, (handle_method_call "0.7.0" (after_notifies 21) "client" "Notify"
              (MethodParameters.notify (sample_request 0))).replies = [r]
        ∧ (r = max_notifications_exceeded ∨ r = invalid_id
            ∨ ∃ v, r = Reply.return_value v) :=
  ⟨⟨Or.inl rfl, by decide⟩,
    handle_method_call_one_reply "0.7.0" (after_notifies 21) "client" "Notify"
      (MethodParameters.notify (sample_request 0)) (Or.inl rfl) (by decide)⟩

/-! ## Timeout of a popup -/

/-- C20, as stated, fails: the timeout of the popup of the live notification 2
fires in the daemon holding the notifications 1, 2, 3.  Afterwards the
notification 2 still resolves, the live count is still 3 (not 2) and no
NotificationClosed signal, with the EXPIRED reason or any other, was emitted. -/
theorem timeout_does_not_close :
    nd_queue_lookup (after_notifies 3).queue second_bubble.notification
        = some second_notification
      ∧ nd_queue_lookup (timeout_fired (after_notifies 3) second_bubble).1.daemon.queue
          second_bubble.notification = some second_notification
      ∧ nd_queue_length (timeout_fired (after_notifies 3) second_bubble).1.daemon.queue
          = nd_queue_length (after_notifies 3).queue
      ∧ BusSignal.NotificationClosed "client" 2 ND_NOTIFICATION_CLOSED_EXPIRED
          ∉ (timeout_fired (after_notifies 3) second_bubble).1.signals
      ∧ (timeout_fired (after_notifies 3) second_bubble).1.signals = [] := by
  decide

/-- C20, amended: when the timeout of a popup fires, `timeout_bubble` clears the
popup's `timeout_id`, destroys the popup and returns FALSE, and that is all: the
daemon is unchanged (the notification stays in the queue, the live count is the
same) and no reply or signal is produced. -/
theorem timeout_only_destroys_popup (daemon : NotifyDaemon) (bubble : NdBubble) :
    timeout_bubble bubble = ({ bubble with timeout_id := 0, destroyed := true }, false)
      ∧ (timeout_fired daemon bubble).2 = { bubble with timeout_id := 0, destroyed := true }
      ∧ (timeout_fired daemon bubble).1.daemon = daemon
      ∧ nd_queue_lookup (timeout_fired daemon bubble).1.daemon.queue bubble.notification
          = nd_queue_lookup daemon.queue bubble.notification
      ∧ nd_queue_length (timeout_fired daemon bubble).1.daemon.queue
          = nd_queue_length daemon.queue
      ∧ (timeout_fired daemon bubble).1.signals = [] :=
  ⟨rfl, rfl, rfl, rfl, rfl, rfl⟩

/-! ## Shape of the handlers -/

theorem notify_replace_outcome (daemon : NotifyDaemon) (sender : String)
    (parameters : NotifyParams) (n : NdNotification)
    (hcap : nd_queue_length daemon.queue ≤ MAX_NOTIFICATIONS)
    (hpos : 0 < parameters.id)
    (hlive : nd_queue_lookup daemon.queue parameters.id = some n) :
    handle_notify daemon sender parameters
      = Outcome.mk
          (NotifyDaemon.mk (nd_queue_write_back daemon.queue
            (nd_notification_update n parameters.app_name parameters.icon_name
              parameters.summary parameters.body parameters.actions parameters.hints
              parameters.timeout)))
          [Reply.return_value (ReturnValue.id n.id)] [] := by
  unfold handle_notify
  rw [if_neg (Nat.not_lt.mpr hcap)]
  simp only [hpos, if_true, hlive]
  rfl

theorem notify_create_outcome (daemon : NotifyDaemon) (sender : String)
    (parameters : NotifyParams)
    (hcap : nd_queue_length daemon.queue ≤ MAX_NOTIFICATIONS)
    (hnew : parameters.id = 0 ∨ nd_queue_lookup daemon.queue parameters.id = none) :
    handle_notify daemon sender parameters
      = Outcome.mk
          (NotifyDaemon.mk (nd_queue_add daemon.queue
            (nd_notification_update (nd_notification_new sender) parameters.app_name
              parameters.icon_name parameters.summary parameters.body parameters.actions
              parameters.hints parameters.timeout)).1)
          [Reply.return_value (ReturnValue.id daemon.queue.next_id)] [] := by
  unfold handle_notify
  rw [if_neg (Nat.not_lt.mpr hcap)]
  have hfound : (if parameters.id > 0 then nd_queue_lookup daemon.queue parameters.id
      else none) = none := by
    rcases hnew with h | h
    · simp [h]
    · simp [h]
  simp only [hfound]
  rfl

theorem close_cases (daemon : NotifyDaemon) (sender : String) (id : Nat) :
    handle_close_notification daemon sender id = Outcome.mk daemon [invalid_id] []
      ∨ handle_close_notification daemon sender id
          = Outcome.mk daemon [Reply.return_value ReturnValue.none] []
      ∨ ∃ n, nd_queue_lookup daemon.queue id = some n
          ∧ handle_close_notification daemon sender id
            = Outcome.mk (NotifyDaemon.mk (nd_queue_remove daemon.queue id))
                [Reply.return_value ReturnValue.none]
                [BusSignal.NotificationClosed n.sender id ND_NOTIFICATION_CLOSED_API] := by
  by_cases hid : id = 0
  · left
    subst hid
    rfl
  · right
    have hpos : 0 < id := Nat.pos_of_ne_zero hid
    cases hl : nd_queue_lookup daemon.queue id with
    | none => exact Or.inl (close_unknown_outcome daemon sender id hpos hl)
    | some n => exact Or.inr ⟨n, rfl, close_live_outcome daemon sender id n hpos hl⟩

theorem action_cases (daemon : NotifyDaemon) (id : Nat) (action : String) :
    nd_notification_action_invoked daemon id action = Outcome.mk daemon [] []
      ∨ ∃ n, nd_queue_lookup daemon.queue id = some n
          ∧ ((n.is_resident = true
              ∧ nd_notification_action_invoked daemon id action
                = Outcome.mk daemon [] [BusSignal.ActionInvoked n.sender id action])
            ∨ (n.is_resident = false
              ∧ nd_notification_action_invoked daemon id action
                = Outcome.mk (NotifyDaemon.mk (nd_queue_remove daemon.queue id)) []
                    [BusSignal.ActionInvoked n.sender id action,
                     BusSignal.NotificationClosed n.sender id
                       ND_NOTIFICATION_CLOSED_USER])) := by
  cases hl : nd_queue_lookup daemon.queue id with
  | none =>
    left
    simp only [nd_notification_action_invoked, hl]
  | some n =>
    right
    have hid : n.id = id := lookup_some_id hl
    refine ⟨n, rfl, ?_⟩
    cases hres : n.is_resident
    · right
      refine ⟨rfl, ?_⟩
      simp only [nd_notification_action_invoked, hl, on_notification_action_invoked,
        nd_notification_get_is_resident, hres, nd_notification_close,
        nd_notification_get_id, hid, on_notification_close, nd_notification_get_sender]
      rfl
    · left
      refine ⟨rfl, ?_⟩
      simp only [nd_notification_action_invoked, hl, on_notification_action_invoked,
        nd_notification_get_is_resident, hres, nd_notification_get_id, hid,
        nd_notification_get_sender]
      rfl

/-- How an event can change the daemon: not at all, by an in-place update of a
live notification, by adding a notification, or by removing an id. -/
theorem step_daemon_cases (daemon : NotifyDaemon) (e : Event) :
    (step daemon e).daemon = daemon
      ∨ (∃ m, (step daemon e).daemon = NotifyDaemon.mk (nd_queue_write_back daemon.queue m))
      ∨ (∃ m, (step daemon e).daemon = NotifyDaemon.mk (nd_queue_add daemon.queue m).1)
      ∨ (∃ id, (step daemon e).daemon = NotifyDaemon.mk (nd_queue_remove daemon.queue id)) := by
  cases e with
  | Notify sender parameters =>
    rcases handle_notify_cases daemon sender parameters with ⟨_, h⟩ | ⟨n, _, h⟩ | h
    · left; simp only [step, h]
    · right; left; exact ⟨_, by simp only [step, h]; rfl⟩
    · right; right; left; exact ⟨_, by simp only [step, h]; rfl⟩
  | CloseNotification sender id =>
    rcases close_cases daemon sender id with h | h | ⟨n, _, h⟩
    · left; simp only [step, h]
    · left; simp only [step, h]
    · right; right; right; exact ⟨id, by simp only [step, h]⟩
  | ActionInvoked id action =>
    rcases action_cases daemon id action with h | ⟨n, _, ⟨_, h⟩ | ⟨_, h⟩⟩
    · left; simp only [step, h]
    · left; simp only [step, h]
    · right; right; right; exact ⟨id, by simp only [step, h]⟩

/-! ## The id counter short of wrap-around -/

theorem created_ids_cons (daemon : NotifyDaemon) (e : Event) (es : List Event) :
    ∃ head, created_ids daemon (e :: es) = head ++ created_ids (step daemon e).daemon es
      ∧ (head = []
        ∨ (head = [daemon.queue.next_id]
          ∧ ∃ m, (step daemon e).daemon = NotifyDaemon.mk (nd_queue_add daemon.queue m).1)) := by
  cases e with
  | Notify sender parameters =>
    refine ⟨_, rfl, ?_⟩
    rcases handle_notify_cases daemon sender parameters with ⟨_, h⟩ | ⟨n, _, h⟩ | h
    · left
      rw [h]
      simp
    · left
      rw [h]
      have : nd_queue_length (nd_queue_write_back daemon.queue
          (nd_notification_update n parameters.app_name parameters.icon_name
            parameters.summary parameters.body parameters.actions parameters.hints
            parameters.timeout)) = nd_queue_length daemon.queue :=
        replaceFirst_length _ _ _
      simp [this]
    · right
      refine ⟨?_, _, by simp only [step, h]; rfl⟩
      rw [h]
      simp [nd_queue_length, nd_queue_add, reply_ids]
  | CloseNotification sender id => exact ⟨[], rfl, Or.inl rfl⟩
  | ActionInvoked id action => exact ⟨[], rfl, Or.inl rfl⟩

theorem run_cons (daemon : NotifyDaemon) (e : Event) (es : List Event) :
    run daemon (e :: es) = run (step daemon e).daemon es := rfl

theorem step_notify (daemon : NotifyDaemon) (sender : String) (parameters : NotifyParams) :
    step daemon (Event.Notify sender parameters) = handle_notify daemon sender parameters :=
  rfl

theorem step_close (daemon : NotifyDaemon) (sender : String) (id : Nat) :
    step daemon (Event.CloseNotification sender id)
      = handle_close_notification daemon sender id := rfl

/-! ## The id counter before its first overflow -/

theorem lookup_add_some (queue : NdQueue) (x m : NdNotification) (r : Nat)
    (h : nd_queue_lookup queue r = some m) :
    nd_queue_lookup (nd_queue_add queue x).1 r = some m := by
  unfold nd_queue_lookup at h ⊢
  show List.find? _ (queue.notifications ++ [_]) = some m
  rw [List.find?_append, h]
  rfl

theorem created_ids_create (daemon : NotifyDaemon) (sender : String)
    (parameters : NotifyParams) (es : List Event)
    (h : handle_notify daemon sender parameters
      = Outcome.mk
          (NotifyDaemon.mk (nd_queue_add daemon.queue
            (nd_notification_update (nd_notification_new sender) parameters.app_name
              parameters.icon_name parameters.summary parameters.body parameters.actions
              parameters.hints parameters.timeout)).1)
          [Reply.return_value (ReturnValue.id daemon.queue.next_id)] []) :
    daemon.queue.next_id ∈ created_ids daemon (Event.Notify sender parameters :: es) := by
  unfold created_ids
  rw [h]
  simp [nd_queue_length, nd_queue_add, reply_ids]

theorem created_ids_tail (daemon : NotifyDaemon) (e : Event) (es : List Event) (r : Nat)
    (h : r ∉ created_ids daemon (e :: es)) : r ∉ created_ids (step daemon e).daemon es := by
  obtain ⟨head, hsplit, _⟩ := created_ids_cons daemon e es
  rw [hsplit, List.mem_append] at h
  exact fun hmem => h (Or.inr hmem)

theorem action_handler_signals (n : NdNotification) (action : String)
    (daemon : NotifyDaemon) :
    ∀ sig ∈ (on_notification_action_invoked n action daemon).2,
      signal_destination sig = n.sender ∧ signal_id sig = n.id := by
  intro sig hsig
  unfold on_notification_action_invoked at hsig
  cases hres : n.is_resident
  · simp only [nd_notification_get_is_resident, hres, nd_notification_get_sender,
      nd_notification_get_id, nd_notification_close] at hsig
    cases hl : nd_queue_lookup daemon.queue n.id with
    | none =>
      simp only [hl, Bool.not_false, if_true, List.append_nil, List.mem_singleton] at hsig
      rw [hsig]
      exact ⟨rfl, rfl⟩
    | some m =>
      simp only [hl, Bool.not_false, if_true, on_notification_close,
        nd_notification_get_sender, nd_notification_get_id, List.singleton_append,
        List.mem_cons, List.mem_singleton, List.not_mem_nil, or_false] at hsig
      rcases hsig with hsig | hsig <;> rw [hsig] <;> exact ⟨rfl, rfl⟩
  · simp only [nd_notification_get_is_resident, hres, nd_notification_get_sender,
      nd_notification_get_id, Bool.not_true, Bool.false_eq_true, if_false,
      List.mem_singleton] at hsig
    rw [hsig]
    exact ⟨rfl, rfl⟩

theorem step_signals_to_sender (daemon : NotifyDaemon) (e : Event) (es : List Event)
    (r : Nat) (s0 : String)
    (hP : nd_queue_lookup daemon.queue r = none
      ∨ ∃ m, nd_queue_lookup daemon.queue r = some m ∧ m.sender = s0)
    (hnew : r ∉ created_ids daemon (e :: es)) :
    (nd_queue_lookup (step daemon e).daemon.queue r = none
        ∨ ∃ m, nd_queue_lookup (step daemon e).daemon.queue r = some m ∧ m.sender = s0)
      ∧ ∀ sig ∈ (step daemon e).signals, signal_id sig = r → signal_destination sig = s0 := by
  have hsender : ∀ n, nd_queue_lookup daemon.queue r = some n → n.sender = s0 := by
    intro n hn
    rcases hP with h | ⟨m, hm, hs⟩
    · rw [h] at hn; cases hn
    · rw [hm] at hn
      rw [← Option.some.inj hn]
      exact hs
  have hkeep : ∀ id, id ≠ r →
      (nd_queue_lookup (nd_queue_remove daemon.queue id) r = none
        ∨ ∃ m, nd_queue_lookup (nd_queue_remove daemon.queue id) r = some m ∧ m.sender = s0) := by
    intro id hne
    rw [lookup_remove_other _ _ _ (Ne.symm hne)]
    exact hP
  cases e with
  | Notify sender parameters =>
    rcases handle_notify_cases daemon sender parameters with ⟨_, h⟩ | ⟨n, hl, h⟩ | h
    · simp only [step, h]
      exact ⟨hP, by intro sig hsig; cases hsig⟩
    · simp only [step, h]
      refine ⟨?_, by intro sig hsig; cases hsig⟩
      have hn : n.id = parameters.id := lookup_some_id hl
      by_cases hr : r = parameters.id
      · right
        refine ⟨nd_notification_update n parameters.app_name parameters.icon_name
          parameters.summary parameters.body parameters.actions parameters.hints
          parameters.timeout, ?_, ?_⟩
        · have := lookup_write_back_same daemon.queue n
            (nd_notification_update n parameters.app_name parameters.icon_name
              parameters.summary parameters.body parameters.actions parameters.hints
              parameters.timeout) (by show nd_queue_lookup daemon.queue n.id = some n
                                      rw [hn]; exact hl)
          rw [hr, ← hn]
          exact this
        · show n.sender = s0
          exact hsender n (by rw [hr]; exact hl)
      · rw [lookup_write_back_other _ _ r (by show r ≠ n.id; rw [hn]; exact hr)]
        exact hP
    · have hne : r ≠ daemon.queue.next_id := by
        intro e
        apply hnew
        rw [e]
        exact created_ids_create daemon sender parameters es h
      simp only [step, h]
      refine ⟨?_, by intro sig hsig; cases hsig⟩
      rcases hP with hnone | ⟨m, hm, hs⟩
      · exact Or.inl (lookup_add_other _ _ r hne hnone)
      · exact Or.inr ⟨m, lookup_add_some _ _ m r hm, hs⟩
  | CloseNotification sender id =>
    rcases close_cases daemon sender id with h | h | ⟨n, hl, h⟩
    · simp only [step, h]
      exact ⟨hP, by intro sig hsig; cases hsig⟩
    · simp only [step, h]
      exact ⟨hP, by intro sig hsig; cases hsig⟩
    · simp only [step, h]
      by_cases hr : id = r
      · refine ⟨Or.inl (by rw [hr]; exact lookup_remove_self _ _), ?_⟩
        intro sig hsig _
        simp only [List.mem_singleton] at hsig
        rw [hsig]
        exact hsender n (by rw [← hr]; exact hl)
      · refine ⟨hkeep id hr, ?_⟩
        intro sig hsig hid
        simp only [List.mem_singleton] at hsig
        rw [hsig] at hid
        exact absurd hid hr
  | ActionInvoked id action =>
    rcases action_cases daemon id action with h | ⟨n, hl, ⟨_, h⟩ | ⟨_, h⟩⟩
    · simp only [step, h]
      exact ⟨hP, by intro sig hsig; cases hsig⟩
    · simp only [step, h]
      refine ⟨hP, ?_⟩
      intro sig hsig hid
      simp only [List.mem_singleton] at hsig
      rw [hsig] at hid ⊢
      exact hsender n (by rw [← show id = r from hid]; exact hl)
    · simp only [step, h]
      by_cases hr : id = r
      · refine ⟨Or.inl (by rw [hr]; exact lookup_remove_self _ _), ?_⟩
        intro sig hsig _
        simp only [List.mem_cons, List.mem_singleton, List.not_mem_nil, or_false] at hsig
        rcases hsig with hsig | hsig <;> rw [hsig] <;>
          exact hsender n (by rw [← hr]; exact hl)
      · refine ⟨hkeep id hr, ?_⟩
        intro sig hsig hid
        simp only [List.mem_cons, List.mem_singleton, List.not_mem_nil, or_false] at hsig
        rcases hsig with hsig | hsig <;> rw [hsig] at hid <;> exact absurd hid hr

theorem signals_to_sender (r : Nat) (s0 : String) (es : List Event) :
    ∀ daemon : NotifyDaemon,
      (nd_queue_lookup daemon.queue r = none
        ∨ ∃ m, nd_queue_lookup daemon.queue r = some m ∧ m.sender = s0) →
      r ∉ created_ids daemon es →
      ∀ sig ∈ emitted daemon es, signal_id sig = r → signal_destination sig = s0 := by
  induction es with
  | nil =>
    intro daemon _ _ sig hsig
    simp [emitted, trace] at hsig
  | cons e es ih =>
    intro daemon hP hnew sig hsig hid
    have hstep := step_signals_to_sender daemon e es r s0 hP hnew
    rw [emitted_cons, List.mem_append] at hsig
    rcases hsig with hsig | hsig
    · exact hstep.2 sig hsig hid
    · exact ih (step daemon e).daemon hstep.1 (created_ids_tail daemon e es r hnew) sig hsig hid

theorem replace_keeps_identity (daemon : NotifyDaemon) (other : String)
    (again : NotifyParams) (n : NdNotification)
    (hcap : nd_queue_length daemon.queue ≤ MAX_NOTIFICATIONS) (hpos : 0 < again.id)
    (hl : nd_queue_lookup daemon.queue again.id = some n) :
    ∃ updated, nd_queue_lookup (handle_notify daemon other again).daemon.queue again.id
          = some updated
      ∧ updated.sender = n.sender ∧ updated.id = n.id := by
  have hid : n.id = again.id := lookup_some_id hl
  rw [notify_replace_outcome daemon other again n hcap hpos hl]
  refine ⟨nd_notification_update n again.app_name again.icon_name again.summary
    again.body again.actions again.hints again.timeout, ?_, rfl, rfl⟩
  have hback := lookup_write_back_same daemon.queue n
    (nd_notification_update n again.app_name again.icon_name again.summary
      again.body again.actions again.hints again.timeout)
    (by show nd_queue_lookup daemon.queue n.id = some n
        rw [hid]; exact hl)
  rw [← hid]
  exact hback

/-- C18: a `Notify` that creates a notification stores it with the sender of
that request; both handlers address their signals (NotificationClosed and
ActionInvoked) to the stored sender, with the stored id; a replace request on
the notification from any other sender leaves its sender and id as they were;
and from any state in which the id resolves to the notification, through any
later events (replace requests of other senders included) that create no new
notification under the id, every signal carrying the id is addressed to the
creator. -/
theorem signals_addressed_to_creator (daemon : NotifyDaemon) (creator : String)
    (parameters : NotifyParams)
    (hcap : nd_queue_length daemon.queue ≤ MAX_NOTIFICATIONS)
    (hnew : parameters.id = 0 ∨ nd_queue_lookup daemon.queue parameters.id = none) :
    ∃ n, (handle_notify daemon creator parameters).daemon.queue.notifications
          = daemon.queue.notifications ++ [n]
      ∧ (handle_notify daemon creator parameters).replies
          = [Reply.return_value (ReturnValue.id n.id)]
      ∧ n.sender = creator
      ∧ (∀ (reason : NdNotificationClosedReason) (later : NotifyDaemon),
          on_notification_close n reason later
            = [BusSignal.NotificationClosed creator n.id reason])
      ∧ (∀ (action : String) (later : NotifyDaemon),
          ∀ sig ∈ (on_notification_action_invoked n action later).2,
            signal_destination sig = creator ∧ signal_id sig = n.id)
      ∧ (∀ (later : NotifyDaemon) (other : String) (again : NotifyParams),
          nd_queue_length later.queue ≤ MAX_NOTIFICATIONS → 0 < again.id →
          nd_queue_lookup later.queue again.id = some n →
          ∃ updated, nd_queue_lookup (handle_notify later other again).daemon.queue again.id
                = some updated
            ∧ updated.sender = creator ∧ updated.id = n.id)
      ∧ (∀ (later : NotifyDaemon) (es : List Event),
          nd_queue_lookup later.queue n.id = some n →
          n.id ∉ created_ids later es →
          ∀ sig ∈ emitted later es, signal_id sig = n.id → signal_destination sig = creator) := by
  rw [notify_create_outcome daemon creator parameters hcap hnew]
  refine ⟨(nd_queue_add daemon.queue
    (nd_notification_update (nd_notification_new creator) parameters.app_name
      parameters.icon_name parameters.summary parameters.body parameters.actions
      parameters.hints parameters.timeout)).2, rfl, rfl, rfl, ?_, ?_, ?_, ?_⟩
  · intro reason later
    rfl
  · intro action later sig hsig
    exact action_handler_signals _ action later sig hsig
  · intro later other again hcap2 hpos hl
    obtain ⟨updated, hu, hs, hi⟩ := replace_keeps_identity later other again _ hcap2 hpos hl
    exact ⟨updated, hu, hs, hi⟩
  · intro later es hl hfresh sig hsig hid
    exact signals_to_sender _ creator es later (Or.inr ⟨_, hl, rfl⟩) hfresh sig hsig hid

/-- Witness for C18: after three accepted requests, "other" creates a
notification with a request naming the unknown id 9. -/
theorem signals_addressed_to_creator_witness :
    (nd_queue_length (after_notifies 3).queue ≤ MAX_NOTIFICATIONS
      ∧ ((sample_request 9).id = 0
          ∨ nd_queue_lookup (after_notifies 3).queue (sample_request 9).id = none))
    ∧ ∃ n, stale_outcome.daemon.queue.notifications
          = (after_notifies 3).queue.notifications ++ [n]
      ∧ stale_outcome.replies = [Reply.return_value (ReturnValue.id n.id)]
      ∧ n.sender = "other"
      ∧ (∀ (reason : NdNotificationClosedReason) (later : NotifyDaemon),
          on_notification_close n reason later
            = [BusSignal.NotificationClosed "other" n.id reason])
      ∧ (∀ (action : String) (later : NotifyDaemon),
          ∀ sig ∈ (on_notification_action_invoked n action later).2,
            signal_destination sig = "other" ∧ signal_id sig = n.id)
      ∧ (∀ (later : NotifyDaemon) (other : String) (again : NotifyParams),
          nd_queue_length later.queue ≤ MAX_NOTIFICATIONS → 0 < again.id →
          nd_queue_lookup later.queue again.id = some n →
          ∃ updated, nd_queue_lookup (handle_notify later other again).daemon.queue again.id
                = some updated
            ∧ updated.sender = "other" ∧ updated.id = n.id)
      ∧ (∀ (later : NotifyDaemon) (es : List Event),
          nd_queue_lookup later.queue n.id = some n →
          n.id ∉ created_ids later es →
          ∀ sig ∈ emitted later es, signal_id sig = n.id → signal_destination sig = "other") :=
  ⟨⟨by decide, Or.inr (by decide)⟩,
    signals_addressed_to_creator (after_notifies 3) "other" (sample_request 9)
      (by decide) (Or.inr (by decide))⟩

/-! ## The capacity boundary as the code has it -/

theorem step_length_bound (daemon : NotifyDaemon) (e : Event)
    (h : nd_queue_length daemon.queue ≤ MAX_NOTIFICATIONS + 1) :
    nd_queue_length (step daemon e).daemon.queue ≤ MAX_NOTIFICATIONS + 1 := by
  by_cases hover : nd_queue_length daemon.queue > MAX_NOTIFICATIONS
  · cases e with
    | Notify sender parameters =>
      have hrun : (step daemon (Event.Notify sender parameters)).daemon = daemon := by
        rw [step_notify]
        unfold handle_notify
        rw [if_pos hover]
      rw [hrun]
      exact h
    | CloseNotification sender id =>
      rcases close_cases daemon sender id with hc | hc | ⟨n, _, hc⟩
      · rw [step_close, hc]; exact h
      · rw [step_close, hc]; exact h
      · rw [step_close, hc]
        exact Nat.le_trans (List.length_filter_le _ _) h
    | ActionInvoked id action =>
      rcases action_cases daemon id action with ha | ⟨n, _, ⟨_, ha⟩ | ⟨_, ha⟩⟩
      · simp only [step, ha]; exact h
      · simp only [step, ha]; exact h
      · simp only [step, ha]
        exact Nat.le_trans (List.length_filter_le _ _) h
  · have hcap : nd_queue_length daemon.queue ≤ MAX_NOTIFICATIONS := Nat.not_lt.mp hover
    rcases step_daemon_cases daemon e with hs | ⟨m, hs⟩ | ⟨m, hs⟩ | ⟨id, hs⟩
    · rw [hs]; exact h
    · rw [hs]
      show (replaceFirst _ _ _).length ≤ _
      rw [replaceFirst_length]
      exact h
    · rw [hs]
      show (daemon.queue.notifications ++ [_]).length ≤ _
      rw [List.length_append, List.length_singleton]
      exact Nat.succ_le_succ hcap
    · rw [hs]
      exact Nat.le_trans (List.length_filter_le _ _) h

theorem run_length_bound (es : List Event) :
    ∀ daemon : NotifyDaemon, nd_queue_length daemon.queue ≤ MAX_NOTIFICATIONS + 1 →
      nd_queue_length (run daemon es).queue ≤ MAX_NOTIFICATIONS + 1 := by
  induction es with
  | nil => intro daemon h; exact h
  | cons e es ih =>
    intro daemon h
    exact ih (step daemon e).daemon (step_length_bound daemon e h)

/-- C21: in every state reachable from the empty queue the live count is at
most `MAX_NOTIFICATIONS + 1` = 21, and 21 is reached: of 22 consecutive `Notify`
requests with `replaces_id = 0` and no close, the first 21 are answered with
the ids 1 to 21 and only the 22nd is rejected with MaxNotificationsExceeded. -/
theorem live_count_at_most_twenty_one (es : List Event) :
    nd_queue_length (run notify_daemon_init es).queue ≤ MAX_NOTIFICATIONS + 1
      ∧ MAX_NOTIFICATIONS + 1 = 21
      ∧ nd_queue_length (run notify_daemon_init (List.replicate 21 sample_notify)).queue = 21
      ∧ (trace notify_daemon_init (List.replicate 22 sample_notify)).map (fun o => o.replies)
        = (List.range 21).map (fun i => [Reply.return_value (ReturnValue.id (i + 1))])
            ++ [[max_notifications_exceeded]] := by
  refine ⟨run_length_bound es notify_daemon_init (by decide), rfl, by decide, by decide⟩

/-- C22: the capacity test comes before the replace lookup.  When the queue
holds more than `MAX_NOTIFICATIONS` live notifications, a `Notify` whose
`replaces_id` resolves to the live notification `n` is answered with
MaxNotificationsExceeded; the id still resolves to `n` with its content
untouched, and the daemon, live count included, is unchanged. -/
theorem replace_rejected_over_capacity (daemon : NotifyDaemon) (sender : String)
    (parameters : NotifyParams) (n : NdNotification)
    (hover : nd_queue_length daemon.queue > MAX_NOTIFICATIONS)
    (hlive : nd_queue_lookup daemon.queue parameters.id = some n) :
    (handle_notify daemon sender parameters).replies = [max_notifications_exceeded]
      ∧ nd_queue_lookup (handle_notify daemon sender parameters).daemon.queue parameters.id
        = some n
      ∧ (handle_notify daemon sender parameters).daemon = daemon
      ∧ nd_queue_length (handle_notify daemon sender parameters).daemon.queue
        = nd_queue_length daemon.queue := by
  have hrun : handle_notify daemon sender parameters
      = Outcome.mk daemon [max_notifications_exceeded] [] := by
    unfold handle_notify
    rw [if_pos hover]
    rfl
  rw [hrun]
  exact ⟨rfl, hlive, rfl, rfl⟩

/-- Witness for C22: with 21 live notifications, a request with new, resident
content for the live id 7 is rejected and the notification 7 is as before. -/
theorem replace_rejected_over_capacity_witness :
    (nd_queue_length (after_notifies 21).queue > MAX_NOTIFICATIONS
      ∧ nd_queue_lookup (after_notifies 21).queue (resident_request 7).id
          = some (sample_notification 7))
    ∧ ((handle_notify (after_notifies 21) "other" (resident_request 7)).replies
          = [max_notifications_exceeded]
      ∧ nd_queue_lookup
          (handle_notify (after_notifies 21) "other" (resident_request 7)).daemon.queue
          (resident_request 7).id
        = some (sample_notification 7)
      ∧ (handle_notify (after_notifies 21) "other" (resident_request 7)).daemon
        = after_notifies 21
      ∧ nd_queue_length
          (handle_notify (after_notifies 21) "other" (resident_request 7)).daemon.queue
        = nd_queue_length (after_notifies 21).queue) :=
  ⟨⟨by decide, by decide⟩,
    replace_rejected_over_capacity (after_notifies 21) "other" (resident_request 7)
      (sample_notification 7) (by decide) (by decide)⟩

/-! ## Action buttons -/

theorem strcasecmp_default (key : String) :
    (strcasecmp key "default" != 0) = ! is_default_key key := by
  have hlow : ascii_lower "default" = "default" := by decide
  unfold strcasecmp is_default_key
  rw [hlow]
  by_cases h : ascii_lower key = "default"
  · simp [h]
  · by_cases h2 : ascii_lower key < "default"
    · simp [h, h2]
    · simp [h, h2]

theorem add_actions_from_spec (actions : List String) :
    ∀ bubble : NdBubble,
      (add_actions_from actions bubble
          = ({ bubble with
               have_actions := bubble.have_actions || ! (expected_buttons actions).isEmpty },
             expected_buttons actions))
        ∧ ∀ key : String,
          add_actions_from (key :: actions) bubble
            = ({ bubble with
                 have_actions := bubble.have_actions
                   || ! (expected_buttons (key :: actions)).isEmpty },
               expected_buttons (key :: actions)) := by
  induction actions with
  | nil =>
    intro bubble
    refine ⟨?_, ?_⟩
    · simp [add_actions_from, expected_buttons, action_pairs]
    · intro key
      simp [add_actions_from, expected_buttons, action_pairs]
  | cons l rest ih =>
    intro bubble
    refine ⟨(ih bubble).2 l, ?_⟩
    intro key
    have hexp : expected_buttons (key :: l :: rest)
        = if ! is_default_key key then { text := l, key := key } :: expected_buttons rest
          else expected_buttons rest := by
      cases hk : is_default_key key <;>
        simp [expected_buttons, action_pairs, List.filter_cons, hk]
    rw [hexp]
    show (if strcasecmp key "default" != 0 then _ else _) = _
    rw [strcasecmp_default]
    cases hk : is_default_key key
    · simp only [Bool.not_false, if_true]
      rw [(ih { bubble with have_actions := true }).1]
      simp
    · simp only [Bool.not_true, Bool.false_eq_true, if_false]
      rw [(ih bubble).1]

theorem action_pairs_pair_array (pairs : List (String × String)) :
    action_pairs (pair_array pairs) = pairs
      ∧ ∀ key : String, action_pairs (pair_array pairs ++ [key]) = pairs := by
  induction pairs with
  | nil =>
    refine ⟨rfl, ?_⟩
    intro key
    rfl
  | cons pair rest ih =>
    refine ⟨?_, ?_⟩
    · show action_pairs (pair.1 :: pair.2 :: pair_array rest) = pair :: rest
      simp only [action_pairs, ih.1]
    · intro key
      show action_pairs (pair.1 :: pair.2 :: (pair_array rest ++ [key])) = pair :: rest
      simp only [action_pairs, ih.2 key]

/-- C24: for every array of actions (the strings before the terminating NULL),
`add_actions` creates exactly the buttons of the consecutive (key, label) pairs
whose key is not "default" up to letter case, in array order, each with its
label as text and its key as `_action_key`; a last key without a label creates
nothing; `have_actions` becomes TRUE when a button is created and is otherwise
left alone, so after `clear_actions` (as `update_bubble` calls them) it is TRUE
exactly when at least one button was created; no other field changes. -/
theorem add_actions_creates_buttons (bubble : NdBubble) (actions : List String)
    (pairs : List (String × String)) (key : String) :
    (add_actions bubble actions).2 = expected_buttons actions
      ∧ (add_actions bubble actions).1
        = { bubble with
            have_actions := bubble.have_actions || ! (add_actions bubble actions).2.isEmpty }
      ∧ (add_actions (clear_actions bubble) actions).1.have_actions
        = ! (add_actions (clear_actions bubble) actions).2.isEmpty
      ∧ (add_actions bubble (pair_array pairs)).2
        = (pairs.filter (fun pair => ! is_default_key pair.1)).map
            (fun pair => { text := pair.2, key := pair.1 })
      ∧ add_actions bubble (pair_array pairs ++ [key]) = add_actions bubble (pair_array pairs) := by
  have hspec : ∀ (b : NdBubble) (l : List String),
      add_actions b l
        = ({ b with have_actions := b.have_actions || ! (expected_buttons l).isEmpty },
           expected_buttons l) :=
    fun b l => (add_actions_from_spec l b).1
  refine ⟨?_, ?_, ?_, ?_, ?_⟩
  · rw [hspec]
  · rw [hspec]
  · rw [hspec]
    simp [clear_actions]
  · rw [hspec]
    show expected_buttons (pair_array pairs) = _
    unfold expected_buttons
    rw [(action_pairs_pair_array pairs).1]
  · rw [hspec, hspec]
    unfold expected_buttons
    rw [(action_pairs_pair_array pairs).1, (action_pairs_pair_array pairs).2 key]

/-! ## Clicks and the link lock -/

/-- C25: for every bubble, a button release while `url_clicked_lock` is set
clears the lock, invokes no action and changes nothing else; a button release
while the lock is clear invokes the action "default" on the bubble's
notification exactly once (and destroys the popup).  So after a link
activation the next button release is swallowed and leaves the daemon alone,
and the release after that invokes "default". -/
theorem button_release_respects_lock (daemon : NotifyDaemon) (bubble : NdBubble)
    (uri : String) :
    nd_bubble_button_release_event { bubble with url_clicked_lock := true }
        = ({ bubble with url_clicked_lock := false }, [], false)
      ∧ button_released daemon { bubble with url_clicked_lock := true }
        = ({ daemon := daemon, replies := [], signals := [] },
           { bubble with url_clicked_lock := false })
      ∧ nd_bubble_button_release_event { bubble with url_clicked_lock := false }
        = ({ bubble with url_clicked_lock := false, destroyed := true }, ["default"], false)
      ∧ (button_released daemon { bubble with url_clicked_lock := false }).1
        = nd_notification_action_invoked daemon bubble.notification "default"
      ∧ (on_activate_link bubble uri).1 = { bubble with url_clicked_lock := true }
      ∧ button_released daemon (on_activate_link bubble uri).1
        = ({ daemon := daemon, replies := [], signals := [] },
           { bubble with url_clicked_lock := false })
      ∧ (nd_bubble_button_release_event
          (button_released daemon (on_activate_link bubble uri).1).2).2.1 = ["default"]
      ∧ (button_released daemon
          (button_released daemon (on_activate_link bubble uri).1).2).1
        = nd_notification_action_invoked daemon bubble.notification "default" := by
  have hinvoke : ∀ id : Nat, invoke_actions daemon id ["default"]
      = nd_notification_action_invoked daemon id "default" := by
    intro id
    simp [invoke_actions]
  refine ⟨rfl, rfl, rfl, ?_, rfl, rfl, rfl, ?_⟩
  · exact hinvoke bubble.notification
  · exact hinvoke bubble.notification

/-! ## The timeout id of a popup -/

/-- C26: evaluation of the code on event sequences that break the claim.  After
realize and pointer enter the timeout source 1 has been removed, yet
`timeout_id` is still 1 although no source is scheduled; the following pointer
leave passes the id 1 to `g_source_remove` a second time, when no source with
this id exists any more. -/
theorem enter_keeps_stale_timeout_id :
    (bubble_run (new_bubble_loop 2) [BubbleEvent.realize, BubbleEvent.enter]).bubble.timeout_id
        = 1
      ∧ (bubble_run (new_bubble_loop 2) [BubbleEvent.realize, BubbleEvent.enter]).sources = []
      ∧ (bubble_run (new_bubble_loop 2)
          [BubbleEvent.realize, BubbleEvent.enter, BubbleEvent.leave]).removals
        = [(1, true), (1, false)] := by
  decide

/-! ## Handlers are connected once -/

theorem mem_replaceFirst {α : Type} (p : α → Bool) (a x : α) (l : List α)
    (h : x ∈ replaceFirst p a l) : x = a ∨ x ∈ l := by
  induction l with
  | nil => cases h
  | cons y ys ih =>
    unfold replaceFirst at h
    by_cases hp : p y = true
    · rw [if_pos hp] at h
      rcases List.mem_cons.mp h with h | h
      · exact Or.inl h
      · exact Or.inr (List.mem_cons_of_mem _ h)
    · rw [if_neg hp] at h
      rcases List.mem_cons.mp h with h | h
      · exact Or.inr (by rw [h]; exact List.mem_cons_self _ _)
      · rcases ih h with h | h
        · exact Or.inl h
        · exact Or.inr (List.mem_cons_of_mem _ h)

theorem wired_lookup_id {daemon : WiredDaemon} {id : Nat} {w : WiredNotification}
    (h : wired_lookup daemon id = some w) : w.notification.id = id := by
  unfold wired_lookup at h
  have := List.find?_some h
  simpa using this

theorem wired_lookup_mem {daemon : WiredDaemon} {id : Nat} {w : WiredNotification}
    (h : wired_lookup daemon id = some w) : w ∈ daemon.notifications := by
  unfold wired_lookup at h
  exact List.mem_of_find?_eq_some h

theorem handle_notify_wired_cases (daemon : WiredDaemon) (sender : String)
    (parameters : NotifyParams) :
    handle_notify_wired daemon sender parameters
        = WiredOutcome.mk daemon [max_notifications_exceeded] []
      ∨ (∃ existing, wired_lookup daemon parameters.id = some existing
          ∧ handle_notify_wired daemon sender parameters
            = WiredOutcome.mk
                (WiredDaemon.mk
                  (replaceFirst (fun w => decide (w.notification.id = existing.notification.id))
                    (WiredNotification.mk
                      (nd_notification_update existing.notification parameters.app_name
                        parameters.icon_name parameters.summary parameters.body
                        parameters.actions parameters.hints parameters.timeout)
                      existing.closed_connections existing.action_connections)
                    daemon.notifications)
                  daemon.next_id)
                [Reply.return_value (ReturnValue.id existing.notification.id)] [])
      ∨ (∃ created, created.closed_connections = 1 ∧ created.action_connections = 1
          ∧ handle_notify_wired daemon sender parameters
            = WiredOutcome.mk
                (WiredDaemon.mk (daemon.notifications ++ [created])
                  ((daemon.next_id + 1) % GUINT_MODULUS))
                [Reply.return_value (ReturnValue.id daemon.next_id)] []) := by
  by_cases hcap : daemon.notifications.length > MAX_NOTIFICATIONS
  · left
    unfold handle_notify_wired
    rw [if_pos hcap]
  · right
    by_cases hp : parameters.id > 0
    · cases hl : wired_lookup daemon parameters.id with
      | none =>
        right
        refine ⟨WiredNotification.mk
          { nd_notification_update (nd_notification_new sender) parameters.app_name
              parameters.icon_name parameters.summary parameters.body parameters.actions
              parameters.hints parameters.timeout with id := daemon.next_id } 1 1,
          rfl, rfl, ?_⟩
        unfold handle_notify_wired
        rw [if_neg hcap]
        simp only [hp, if_true, hl]
        rfl
      | some existing =>
        left
        refine ⟨existing, rfl, ?_⟩
        unfold handle_notify_wired
        rw [if_neg hcap]
        simp only [hp, if_true, hl]
        rfl
    · right
      refine ⟨WiredNotification.mk
        { nd_notification_update (nd_notification_new sender) parameters.app_name
            parameters.icon_name parameters.summary parameters.body parameters.actions
            parameters.hints parameters.timeout with id := daemon.next_id } 1 1,
        rfl, rfl, ?_⟩
      unfold handle_notify_wired
      rw [if_neg hcap]
      simp only [hp, if_false]
      rfl

theorem wired_close_subset (daemon : WiredDaemon) (w : WiredNotification)
    (reason : NdNotificationClosedReason) :
    ∀ v ∈ (wired_close daemon w reason).1.notifications, v ∈ daemon.notifications := by
  intro v hv
  unfold wired_close at hv
  cases hl : wired_lookup daemon w.notification.id with
  | none =>
    simp only [hl] at hv
    exact hv
  | some u =>
    simp only [hl] at hv
    exact (List.mem_filter.mp hv).1

theorem wired_action_effect_subset (k : Nat) (w : WiredNotification) (action : String) :
    ∀ daemon : WiredDaemon,
      ∀ v ∈ (wired_action_effect k daemon w action).1.notifications,
        v ∈ daemon.notifications := by
  induction k with
  | zero =>
    intro daemon v hv
    exact hv
  | succ k ih =>
    intro daemon v hv
    unfold wired_action_effect at hv
    have hrest := ih _ v hv
    by_cases hres : (! nd_notification_get_is_resident w.notification) = true
    · simp only [hres, if_true] at hrest
      exact wired_close_subset daemon w _ v hrest
    · simp only [hres, if_false] at hrest
      exact hrest

theorem connected_once_step (daemon : WiredDaemon) (e : Event)
    (h : connected_once daemon) : connected_once (wired_step daemon e).daemon := by
  cases e with
  | Notify sender parameters =>
    show connected_once (handle_notify_wired daemon sender parameters).daemon
    rcases handle_notify_wired_cases daemon sender parameters with
      hc | ⟨existing, hl, hc⟩ | ⟨created, h1, h2, hc⟩
    · rw [hc]; exact h
    · rw [hc]
      intro v hv
      rcases mem_replaceFirst _ _ v _ hv with hv | hv
      · rw [hv]
        exact h existing (wired_lookup_mem hl)
      · exact h v hv
    · rw [hc]
      intro v hv
      rcases List.mem_append.mp hv with hv | hv
      · exact h v hv
      · rw [List.mem_singleton.mp hv]
        exact ⟨h1, h2⟩
  | CloseNotification sender id =>
    show connected_once (handle_close_notification_wired daemon sender id).daemon
    unfold handle_close_notification_wired
    split
    · exact h
    · split
      · intro v hv
        exact h v (wired_close_subset daemon _ _ v hv)
      · exact h
  | ActionInvoked id action =>
    show connected_once (action_invoked_wired daemon id action).daemon
    unfold action_invoked_wired
    split
    · intro v hv
      exact h v (wired_action_effect_subset _ _ _ daemon v hv)
    · exact h

theorem connected_once_run (es : List Event) :
    ∀ daemon : WiredDaemon, connected_once daemon → connected_once (wired_run daemon es) := by
  induction es with
  | nil => intro daemon h; exact h
  | cons e es ih =>
    intro daemon h
    exact ih (wired_step daemon e).daemon (connected_once_step daemon e h)

theorem connected_once_init : connected_once wired_init := by
  intro w hw
  cases hw

theorem wired_replace_requests (r : Nat) (hpos : 0 < r)
    (requests : List (String × NotifyParams)) :
    ∀ daemon : WiredDaemon, (wired_lookup daemon r).isSome →
      daemon.notifications.length ≤ MAX_NOTIFICATIONS →
      (∀ q ∈ requests, q.2.id = r) →
      wired_replies daemon (notify_events requests)
          = requests.map (fun _ => [Reply.return_value (ReturnValue.id r)])
        ∧ (wired_lookup (wired_run daemon (notify_events requests)) r).isSome := by
  induction requests with
  | nil =>
    intro daemon hlive _ _
    exact ⟨rfl, hlive⟩
  | cons q rest ih =>
    intro daemon hlive hcap hreq
    have hq : q.2.id = r := hreq q (List.mem_cons_self _ _)
    cases hl : wired_lookup daemon r with
    | none => rw [hl] at hlive; cases hlive
    | some existing =>
      have hid : existing.notification.id = r := wired_lookup_id hl
      have hstep : handle_notify_wired daemon q.1 q.2
          = WiredOutcome.mk
              (WiredDaemon.mk
                (replaceFirst (fun w => decide (w.notification.id = existing.notification.id))
                  (WiredNotification.mk
                    (nd_notification_update existing.notification q.2.app_name
                      q.2.icon_name q.2.summary q.2.body q.2.actions q.2.hints q.2.timeout)
                    existing.closed_connections existing.action_connections)
                  daemon.notifications)
                daemon.next_id)
              [Reply.return_value (ReturnValue.id existing.notification.id)] [] := by
        unfold handle_notify_wired
        rw [if_neg (Nat.not_lt.mpr hcap)]
        have hp : q.2.id > 0 := by rw [hq]; exact hpos
        rw [hq] at hp ⊢
        simp only [hp, if_true, hl]
        rfl
      have hlive' : (wired_lookup (handle_notify_wired daemon q.1 q.2).daemon r).isSome := by
        rw [hstep]
        unfold wired_lookup
        rw [← hid]
        rw [find_replaceFirst_same _ _ _ (by simp [nd_notification_update])
          (by unfold wired_lookup at hl; rw [hid, hl]; rfl)]
        rfl
      have hcap' : (handle_notify_wired daemon q.1 q.2).daemon.notifications.length
          ≤ MAX_NOTIFICATIONS := by
        rw [hstep]
        show (replaceFirst _ _ _).length ≤ _
        rw [replaceFirst_length]
        exact hcap
      have hrest := ih (handle_notify_wired daemon q.1 q.2).daemon hlive' hcap'
        (fun q' hq' => hreq q' (List.mem_cons_of_mem _ hq'))
      refine ⟨?_, hrest.2⟩
      show (handle_notify_wired daemon q.1 q.2).replies
          :: wired_replies (handle_notify_wired daemon q.1 q.2).daemon (notify_events rest) = _
      rw [hrest.1, hstep, hid]
      rfl

theorem wired_run_append (es1 es2 : List Event) :
    ∀ daemon : WiredDaemon,
      wired_run daemon (es1 ++ es2) = wired_run (wired_run daemon es1) es2 := by
  induction es1 with
  | nil => intro daemon; rfl
  | cons e es ih =>
    intro daemon
    exact ih (wired_step daemon e).daemon

theorem wired_close_once (daemon : WiredDaemon) (w u : WiredNotification)
    (reason : NdNotificationClosedReason)
    (hl : wired_lookup daemon w.notification.id = some u)
    (hc : w.closed_connections = 1) :
    wired_close daemon w reason
      = (WiredDaemon.mk
          (daemon.notifications.filter
            (fun v => decide (v.notification.id ≠ w.notification.id)))
          daemon.next_id,
         [BusSignal.NotificationClosed w.notification.sender w.notification.id reason]) := by
  unfold wired_close
  simp only [hl, wired_closed_effect, hc, on_notification_close,
    nd_notification_get_sender, nd_notification_get_id]
  rfl

theorem wired_signals_once (daemon : WiredDaemon) (w : WiredNotification) (r : Nat)
    (hpos : 0 < r) (hl : wired_lookup daemon r = some w)
    (hc : w.closed_connections = 1) (ha : w.action_connections = 1) :
    (∀ closer : String, (handle_close_notification_wired daemon closer r).signals
        = [BusSignal.NotificationClosed w.notification.sender r ND_NOTIFICATION_CLOSED_API])
      ∧ (∀ action : String, (action_invoked_wired daemon r action).signals
        = BusSignal.ActionInvoked w.notification.sender r action ::
            (if w.notification.is_resident then []
             else [BusSignal.NotificationClosed w.notification.sender r
                    ND_NOTIFICATION_CLOSED_USER])) := by
  have hid : w.notification.id = r := wired_lookup_id hl
  have hl' : wired_lookup daemon w.notification.id = some w := by rw [hid]; exact hl
  refine ⟨?_, ?_⟩
  · intro closer
    unfold handle_close_notification_wired
    rw [if_neg (Nat.pos_iff_ne_zero.mp hpos)]
    simp only [hl]
    rw [wired_close_once daemon w w _ hl' hc, hid]
  · intro action
    unfold action_invoked_wired
    simp only [hl, ha]
    cases hres : w.notification.is_resident
    · simp only [wired_action_effect, nd_notification_get_is_resident, hres, Bool.not_false,
        if_true, nd_notification_get_sender, nd_notification_get_id]
      rw [wired_close_once daemon w w _ hl' hc, hid]
      simp
    · simp only [wired_action_effect, nd_notification_get_is_resident, hres, Bool.not_true,
        Bool.false_eq_true, if_false, nd_notification_get_sender, nd_notification_get_id]
      rw [hid]
      simp

/-- C23: the daemon's handlers are connected to a notification only when
`handle_notify` creates it, once each.  For every event history from the start
of the daemon after which the id r > 0 is live and the capacity test passes,
and for every list of n >= 0 further `Notify` requests with `replaces_id = r`:
each of them succeeds with the reply r, the notification under r still has one
connection per handler, closing it emits exactly one NotificationClosed signal,
and invoking an action on it emits exactly one ActionInvoked signal (followed by
the one NotificationClosed of the close when it is not resident). -/
theorem handlers_connected_once (es : List Event)
    (requests : List (String × NotifyParams)) (r : Nat)
    (hpos : 0 < r)
    (hlive : (wired_lookup (wired_run wired_init es) r).isSome)
    (hcap : (wired_run wired_init es).notifications.length ≤ MAX_NOTIFICATIONS)
    (hreq : ∀ q ∈ requests, q.2.id = r) :
    wired_replies (wired_run wired_init es) (notify_events requests)
        = requests.map (fun _ => [Reply.return_value (ReturnValue.id r)])
      ∧ ∃ w, wired_lookup (wired_run wired_init (es ++ notify_events requests)) r = some w
          ∧ w.closed_connections = 1 ∧ w.action_connections = 1
          ∧ (∀ closer : String,
              (handle_close_notification_wired
                  (wired_run wired_init (es ++ notify_events requests)) closer r).signals
                = [BusSignal.NotificationClosed w.notification.sender r
                    ND_NOTIFICATION_CLOSED_API])
          ∧ (∀ action : String,
              (action_invoked_wired
                  (wired_run wired_init (es ++ notify_events requests)) r action).signals
                = BusSignal.ActionInvoked w.notification.sender r action ::
                    (if w.notification.is_resident then []
                     else [BusSignal.NotificationClosed w.notification.sender r
                            ND_NOTIFICATION_CLOSED_USER])) := by
  have hrep := wired_replace_requests r hpos requests (wired_run wired_init es) hlive hcap hreq
  refine ⟨hrep.1, ?_⟩
  have hinv : connected_once (wired_run wired_init (es ++ notify_events requests)) :=
    connected_once_run _ wired_init connected_once_init
  rw [wired_run_append] at hinv ⊢
  cases hl : wired_lookup (wired_run (wired_run wired_init es) (notify_events requests)) r with
  | none =>
    have := hrep.2
    rw [hl] at this
    cases this
  | some w =>
    have hw := hinv w (wired_lookup_mem hl)
    have hsig := wired_signals_once _ w r hpos hl hw.1 hw.2
    exact ⟨w, rfl, hw.1, hw.2, hsig.1, hsig.2⟩

/-- Witness for C23: after three accepted requests, two replace requests on the
live id 2, first flagged resident by another sender, then plain by a third. -/
theorem handlers_connected_once_witness :
    (0 < 2
      ∧ (wired_lookup (wired_run wired_init (List.replicate 3 sample_notify)) 2).isSome
      ∧ (wired_run wired_init (List.replicate 3 sample_notify)).notifications.length
          ≤ MAX_NOTIFICATIONS)
    ∧ (wired_replies (wired_run wired_init (List.replicate 3 sample_notify))
          (notify_events [("other", resident_request 2), ("third", sample_request 2)])
        = [("other", resident_request 2), ("third", sample_request 2)].map
            (fun _ => [Reply.return_value (ReturnValue.id 2)])
      ∧ ∃ w, wired_lookup (wired_run wired_init (List.replicate 3 sample_notify ++
                notify_events [("other", resident_request 2), ("third", sample_request 2)])) 2
              = some w
          ∧ w.closed_connections = 1 ∧ w.action_connections = 1
          ∧ (∀ closer : String,
              (handle_close_notification_wired
                  (wired_run wired_init (List.replicate 3 sample_notify ++
                    notify_events [("other", resident_request 2), ("third", sample_request 2)]))
                  closer 2).signals
                = [BusSignal.NotificationClosed w.notification.sender 2
                    ND_NOTIFICATION_CLOSED_API])
          ∧ (∀ action : String,
              (action_invoked_wired
                  (wired_run wired_init (List.replicate 3 sample_notify ++
                    notify_events [("other", resident_request 2), ("third", sample_request 2)]))
                  2 action).signals
                = BusSignal.ActionInvoked w.notification.sender 2 action ::
                    (if w.notification.is_resident then []
                     else [BusSignal.NotificationClosed w.notification.sender 2
                            ND_NOTIFICATION_CLOSED_USER]))) :=
  ⟨⟨by decide, by decide, by decide⟩,
    handlers_connected_once (List.replicate 3 sample_notify)
      [("other", resident_request 2), ("third", sample_request 2)] 2
      (by decide) (by decide) (by decide)
      (by
        intro q hq
        simp only [List.mem_cons, List.mem_singleton, List.not_mem_nil, or_false] at hq
        rcases hq with h | h <;> rw [h] <;> rfl)⟩

end NotificationDaemon
